import Mathlib

/- Verification of the MinecraftSkin_Raytracer rendering core.

   Shallow embedding conventions:
   - C++ float scalars are embedded as exact rationals.
   - Transcendental float operations (sqrt, pow, sin, cos, tan), the
     mt19937 pseudo-random stream, and the float-to-unsigned seed cast have
     no exact rational counterpart; they are abstracted as the fields of a
     FloatModel record.  Every definition that uses them takes the record as
     a parameter and every theorem quantifies over it, so the theorems hold
     for every deterministic interpretation of those operations.
   - C++ int values are embedded as integers; fallible array indexing uses
     a default element, matching the in-bounds behaviour of the source.
-/

/-- Interpretation of the float operations that have no exact rational
counterpart: sqrt, pow, cos, sin, tan, the constant pi, the mt19937 based
uniform stream (seed and draw index to a sample), and the float to
unsigned cast used for the ambient occlusion seed. -/
structure FloatModel where
  sqrtq : ℚ → ℚ
  powq : ℚ → ℚ → ℚ
  cosq : ℚ → ℚ
  sinq : ℚ → ℚ
  tanq : ℚ → ℚ
  piq : ℚ
  rand : ℕ → ℕ → ℚ
  seedCast : ℚ → ℕ

/-- A concrete FloatModel used by witnesses and counterexamples: the square
root is tabulated exactly at the values the concrete instances reach, the
power function is exact on base 1 and base 0, and the remaining fields are
simple constants.  The claim theorems quantify over every FloatModel, so
any single model is enough to instantiate them. -/
def qModel : FloatModel where
  sqrtq := fun q =>
    if q = 1 then 1 else if q = 4 then 2 else if q = 25 then 5
    else if q = 998001/1000000 then 999/1000 else 0
  powq := fun b _ => if b = 1 then 1 else 0
  cosq := fun _ => 0
  sinq := fun _ => 0
  tanq := fun _ => 1
  piq := 3
  rand := fun _ _ => 1/2
  seedCast := fun _ => 0

/-- math/color.h: RGBA color with componentwise arithmetic.  The default
constructed Color is opaque black (0,0,0,1). -/
structure Color where
  r : ℚ
  g : ℚ
  b : ℚ
  a : ℚ
  deriving DecidableEq, Repr

/-- Color(): the C++ default constructor value (0,0,0,1). -/
def Color.default0 : Color := ⟨0, 0, 0, 1⟩

def Color.add (c d : Color) : Color := ⟨c.r + d.r, c.g + d.g, c.b + d.b, c.a + d.a⟩

instance : Add Color := ⟨Color.add⟩

/-- Color::operator*(float): scalar scaling of all four channels. -/
def Color.scale (c : Color) (s : ℚ) : Color := ⟨c.r * s, c.g * s, c.b * s, c.a * s⟩

/-- Color::operator*(Color): componentwise multiplication. -/
def Color.mulc (c d : Color) : Color := ⟨c.r * d.r, c.g * d.g, c.b * d.b, c.a * d.a⟩

/-- std::clamp(x, 0, 1). -/
def clamp01 (q : ℚ) : ℚ := min (max q 0) 1

/-- Color::clamp: clamp all components to the unit interval. -/
def Color.clamp (c : Color) : Color := ⟨clamp01 c.r, clamp01 c.g, clamp01 c.b, clamp01 c.a⟩

/-- math/vec3.h: 3D vector. -/
structure Vec3 where
  x : ℚ
  y : ℚ
  z : ℚ
  deriving DecidableEq, Repr

def Vec3.add (v w : Vec3) : Vec3 := ⟨v.x + w.x, v.y + w.y, v.z + w.z⟩

def Vec3.sub (v w : Vec3) : Vec3 := ⟨v.x - w.x, v.y - w.y, v.z - w.z⟩

instance : Add Vec3 := ⟨Vec3.add⟩

instance : Sub Vec3 := ⟨Vec3.sub⟩

/-- Vec3::operator*(float). -/
def Vec3.smul (v : Vec3) (s : ℚ) : Vec3 := ⟨v.x * s, v.y * s, v.z * s⟩

/-- Vec3::operator/(float): multiplication by the reciprocal, as the source
computes it. -/
def Vec3.divs (v : Vec3) (s : ℚ) : Vec3 := v.smul (1 / s)

def Vec3.dot (v w : Vec3) : ℚ := v.x * w.x + v.y * w.y + v.z * w.z

def Vec3.cross (v w : Vec3) : Vec3 :=
  ⟨v.y * w.z - v.z * w.y, v.z * w.x - v.x * w.z, v.x * w.y - v.y * w.x⟩

def Vec3.lengthSquared (v : Vec3) : ℚ := v.x * v.x + v.y * v.y + v.z * v.z

/-- Vec3::length: square root of the squared length, via the float model. -/
def Vec3.length (fm : FloatModel) (v : Vec3) : ℚ := fm.sqrtq v.lengthSquared

/-- Vec3::normalize: returns the zero vector when the length is below 1e-8,
otherwise divides by the length. -/
def Vec3.normalize (fm : FloatModel) (v : Vec3) : Vec3 :=
  if Vec3.length fm v < 1/100000000 then ⟨0, 0, 0⟩ else v.divs (Vec3.length fm v)

/-- math/ray.h: origin plus direction. -/
structure Ray where
  origin : Vec3
  direction : Vec3
  deriving DecidableEq, Repr

/-- Ray::at(t) = origin + direction * t. -/
def Ray.at (r : Ray) (t : ℚ) : Vec3 := r.origin + r.direction.smul t

/-- Truncation of a rational toward zero, the semantics of
static_cast of a float value to int for in-range values. -/
def truncQ (q : ℚ) : ℤ := Int.tdiv q.num q.den

/-- std::clamp on integers (low bound at most the high bound at use sites). -/
def clampZ (v lo hi : ℤ) : ℤ := min (max v lo) hi

/-- skin/texture_region.h: a width by height grid of RGBA pixels. -/
structure TextureRegion where
  width : ℤ
  height : ℤ
  pixels : List Color
  deriving DecidableEq, Repr

/-- TextureRegion::sample: nearest-neighbor lookup; a region with
nonpositive width or height or an empty pixel vector yields the default
Color (0,0,0,1). -/
def TextureRegion.sample (tr : TextureRegion) (u v : ℚ) : Color :=
  if tr.width ≤ 0 ∨ tr.height ≤ 0 ∨ tr.pixels = [] then Color.default0
  else
    let x := clampZ (truncQ (u * tr.width)) 0 (tr.width - 1)
    let y := clampZ (truncQ (v * tr.height)) 0 (tr.height - 1)
    tr.pixels.getD (y * tr.width + x).toNat Color.default0

/-- scene/triangle.h: a triangle with a face normal, per-vertex UVs and a
reference to a texture region.  The C++ raw pointer is embedded as an
optional region value (none embeds nullptr); meshes are immutable after
construction, so value semantics coincide with the pointer semantics. -/
structure Triangle where
  v0 : Vec3
  v1 : Vec3
  v2 : Vec3
  normal : Vec3
  u0 : ℚ
  v0uv : ℚ
  u1 : ℚ
  v1uv : ℚ
  u2 : ℚ
  v2uv : ℚ
  texture : Option TextureRegion
  deriving DecidableEq, Repr

/-- scene/mesh.h: a box mesh of 12 triangles, the outer-layer flag and the
six owned texture regions. -/
structure Mesh where
  triangles : List Triangle
  isOuterLayer : Bool
  ownedTextures : List TextureRegion
  deriving DecidableEq, Repr

/-- scene/scene.h: light source. -/
structure Light where
  position : Vec3
  color : Color
  intensity : ℚ
  radius : ℚ
  deriving DecidableEq, Repr

/-- scene/scene.h: camera. -/
structure Camera where
  position : Vec3
  target : Vec3
  up : Vec3
  fov : ℚ
  deriving DecidableEq, Repr

/-- scene/scene.h: meshes, one light, one camera and a background color. -/
structure Scene where
  meshes : List Mesh
  light : Light
  camera : Camera
  backgroundColor : Color
  deriving DecidableEq, Repr

/-- scene/triangle.h: intersection query result. -/
structure HitResult where
  hit : Bool
  t : ℚ
  point : Vec3
  normal : Vec3
  textureColor : Color
  isOuterLayer : Bool
  deriving DecidableEq, Repr

/-- The default-constructed HitResult (hit = false and default fields), the
value the intersection routines return for a miss. -/
def HitResult.noHit : HitResult :=
  ⟨false, 0, ⟨0, 0, 0⟩, ⟨0, 0, 0⟩, Color.default0, false⟩

/-- FLT_MAX, exactly: 2^128 - 2^104. -/
def fltMax : ℚ := 340282346638528859811704183484516925440

/-- Select the component of a vector by axis index 0, 1, 2, mirroring the
arr[3] views used by the slab loops. -/
def axisGet (v : Vec3) (i : ℕ) : ℚ :=
  if i = 0 then v.x else if i = 1 then v.y else v.z

/-- intersection.cpp computeAABB: fold the minimum and maximum of all
triangle vertices, starting from (FLT_MAX, -FLT_MAX). -/
def computeAABB (mesh : Mesh) : Vec3 × Vec3 :=
  mesh.triangles.foldl
    (fun acc tri =>
      [tri.v0, tri.v1, tri.v2].foldl
        (fun acc2 v =>
          (⟨min acc2.1.x v.x, min acc2.1.y v.y, min acc2.1.z v.z⟩,
           ⟨max acc2.2.x v.x, max acc2.2.y v.y, max acc2.2.z v.z⟩))
        acc)
    (⟨fltMax, fltMax, fltMax⟩, ⟨-fltMax, -fltMax, -fltMax⟩)

/-- Running state of the entry slab loop: current tmin and tmax and the axis
and side that produced the current tmin. -/
structure SlabState where
  tmin : ℚ
  tmax : ℚ
  hitAxis : ℕ
  hitNegSide : Bool
  deriving DecidableEq, Repr

/-- One iteration of the entry slab loop of intersectMesh: a ray parallel to
the axis misses if the origin is outside the slab; otherwise the entry and
exit parameters are ordered, the larger entry updates tmin together with the
axis and side, tmax takes the minimum exit, and an empty interval or an exit
behind the ray is a miss (none). -/
def slabAxisStep (o d mn mx : ℚ) (i : ℕ) (st : SlabState) : Option SlabState :=
  if |d| < 1/100000000 then
    if o < mn ∨ o > mx then none else some st
  else
    let invD := 1 / d
    let t0 := (mn - o) * invD
    let t1 := (mx - o) * invD
    let swapped := t0 > t1
    let tlo := if swapped then t1 else t0
    let thi := if swapped then t0 else t1
    let enterNeg := ¬swapped
    let st1 : SlabState :=
      if tlo > st.tmin then ⟨tlo, st.tmax, i, enterNeg⟩ else st
    let st2 : SlabState := ⟨st1.tmin, min st1.tmax thi, st1.hitAxis, st1.hitNegSide⟩
    if st2.tmin > st2.tmax ∨ st2.tmax < 0 then none else some st2

/-- The full three-axis entry slab scan of intersectMesh, started from
tmin = -FLT_MAX, tmax = FLT_MAX, axis 0, side false. -/
def slabScan (ray : Ray) (bmin bmax : Vec3) : Option SlabState :=
  (slabAxisStep ray.origin.x ray.direction.x bmin.x bmax.x 0
      ⟨-fltMax, fltMax, 0, false⟩).bind
    (fun st => (slabAxisStep ray.origin.y ray.direction.y bmin.y bmax.y 1 st).bind
      (fun st2 => slabAxisStep ray.origin.z ray.direction.z bmin.z bmax.z 2 st2))

/-- Result of the exit-face recomputation loop: the smallest per-axis exit
parameter together with the axis and side it leaves through. -/
structure ExitInfo where
  tmaxRecalc : ℚ
  exitAxis : ℕ
  exitNegSide : Bool
  deriving DecidableEq, Repr

/-- One iteration of the exit-face recomputation loop used both for rays
starting inside the box and for the outer-layer transparency fallback:
parallel axes are skipped, and the smallest exit parameter wins. -/
def exitAxisStep (o d mn mx : ℚ) (i : ℕ) (e : ExitInfo) : ExitInfo :=
  if |d| < 1/100000000 then e
  else
    let invD := 1 / d
    let t0 := (mn - o) * invD
    let t1 := (mx - o) * invD
    let swapped := t0 > t1
    let thi := if swapped then t0 else t1
    let exitNeg := swapped
    if thi < e.tmaxRecalc then ⟨thi, i, exitNeg⟩ else e

/-- The full three-axis exit scan, started from tmaxRecalc = FLT_MAX,
axis 0, side false. -/
def exitScan (ray : Ray) (bmin bmax : Vec3) : ExitInfo :=
  exitAxisStep ray.origin.z ray.direction.z bmin.z bmax.z 2
    (exitAxisStep ray.origin.y ray.direction.y bmin.y bmax.y 1
      (exitAxisStep ray.origin.x ray.direction.x bmin.x bmax.x 0
        ⟨fltMax, 0, false⟩))

/-- Face information resolved from the hit axis and side: outward normal,
texture reference of the face pair and the face index 0..5. -/
structure FaceInfo where
  normal : Vec3
  texture : Option TextureRegion
  faceIndex : ℕ
  deriving DecidableEq, Repr

instance : Inhabited Triangle :=
  ⟨⟨⟨0,0,0⟩, ⟨0,0,0⟩, ⟨0,0,0⟩, ⟨0,0,0⟩, 0, 0, 0, 0, 0, 0, none⟩⟩

/-- tile_renderer.cpp determineFace: map (axis, side) to the face pair in
the triangle array and read the texture of the first triangle of that
pair; an out-of-range triangle index yields a null texture. -/
def determineFace (mesh : Mesh) (hitAxis : ℕ) (hitNegSide : Bool) : FaceInfo :=
  let nf : Vec3 × ℕ :=
    if hitAxis = 2 then
      if hitNegSide then (⟨0, 0, -1⟩, 0) else (⟨0, 0, 1⟩, 1)
    else if hitAxis = 0 then
      if ¬hitNegSide then (⟨1, 0, 0⟩, 2) else (⟨-1, 0, 0⟩, 3)
    else
      if ¬hitNegSide then (⟨0, 1, 0⟩, 4) else (⟨0, -1, 0⟩, 5)
  let triIndex := nf.2 * 2
  let tex :=
    if triIndex < mesh.triangles.length then
      (mesh.triangles.getD triIndex default).texture
    else none
  ⟨nf.1, tex, nf.2⟩

/-- tile_renderer.cpp computeFaceUV: project the hit point onto the hit
face and normalize to the unit square, guarding degenerate box extents,
then clamp to the unit interval. -/
def computeFaceUV (hitPoint bmin bmax : Vec3) (hitAxis : ℕ) (hitNegSide : Bool) : ℚ × ℚ :=
  let size := bmax - bmin
  let sx := if size.x > 1/100000000 then size.x else 1
  let sy := if size.y > 1/100000000 then size.y else 1
  let sz := if size.z > 1/100000000 then size.z else 1
  if hitAxis = 2 then
    let localX := (hitPoint.x - bmin.x) / sx
    let localY := (hitPoint.y - bmin.y) / sy
    if hitNegSide then (clamp01 (1 - localX), clamp01 (1 - localY))
    else (clamp01 localX, clamp01 (1 - localY))
  else if hitAxis = 0 then
    let localZ := (hitPoint.z - bmin.z) / sz
    let localY := (hitPoint.y - bmin.y) / sy
    if ¬hitNegSide then (clamp01 (1 - localZ), clamp01 (1 - localY))
    else (clamp01 localZ, clamp01 (1 - localY))
  else
    let localX := (hitPoint.x - bmin.x) / sx
    let localZ := (hitPoint.z - bmin.z) / sz
    if ¬hitNegSide then (clamp01 localX, clamp01 localZ)
    else (clamp01 localX, clamp01 (1 - localZ))

/-- Sample the texture of the face identified by (axis, side) at the
point projected onto that face; a null texture yields the debug magenta
(1,0,1,1) as in the source. -/
def faceSample (mesh : Mesh) (hitPoint bmin bmax : Vec3) (hitAxis : ℕ) (hitNegSide : Bool) : Color :=
  let face := determineFace mesh hitAxis hitNegSide
  let uv := computeFaceUV hitPoint bmin bmax hitAxis hitNegSide
  match face.texture with
  | some tr => tr.sample uv.1 uv.2
  | none => ⟨1, 0, 1, 1⟩

/-- tile_renderer.cpp intersectMesh (the revision with the outer-layer
transparent fallback): slab test against the AABB of the mesh; a negative
entry parameter switches to the exit face; a sampled alpha of exactly 0 is
a miss, except that an outer-layer mesh retries the exit face once when the
exit parameter is strictly beyond the hit parameter, hitting it with a
flipped normal when its alpha is positive. -/
def intersectMesh (ray : Ray) (mesh : Mesh) : HitResult :=
  if mesh.triangles = [] then HitResult.noHit
  else
    let bb := computeAABB mesh
    let bmin := bb.1
    let bmax := bb.2
    match slabScan ray bmin bmax with
    | none => HitResult.noHit
    | some st =>
      let useExit := st.tmin < 0
      if useExit ∧ st.tmax < 0 then HitResult.noHit
      else
        let tHit := if useExit then st.tmax else st.tmin
        let fa :=
          if useExit then
            let e := exitScan ray bmin bmax
            (e.exitAxis, e.exitNegSide)
          else (st.hitAxis, st.hitNegSide)
        let hitPoint := ray.at tHit
        let face := determineFace mesh fa.1 fa.2
        let texColor := faceSample mesh hitPoint bmin bmax fa.1 fa.2
        if texColor.a = 0 then
          if ¬mesh.isOuterLayer then HitResult.noHit
          else if st.tmax > tHit then
            let e2 := exitScan ray bmin bmax
            let backPoint := ray.at st.tmax
            let backFace := determineFace mesh e2.exitAxis e2.exitNegSide
            let backTexColor := faceSample mesh backPoint bmin bmax e2.exitAxis e2.exitNegSide
            if backTexColor.a > 0 then
              ⟨true, st.tmax, backPoint, backFace.normal.smul (-1), backTexColor, true⟩
            else HitResult.noHit
          else HitResult.noHit
        else
          ⟨true, tHit, hitPoint, face.normal, texColor, mesh.isOuterLayer⟩

/-- The loop body of intersectScene: keep the mesh hit when it hits with a
parameter strictly below the current closest. -/
def sceneFoldStep (ray : Ray) (closest : HitResult) (mesh : Mesh) : HitResult :=
  let hit := intersectMesh ray mesh
  if hit.hit ∧ hit.t < closest.t then hit else closest

/-- intersectScene: test every mesh in list order and keep the hit with the
strictly smaller parameter, starting from a non-hit at FLT_MAX. -/
def intersectScene (ray : Ray) (scene : Scene) : HitResult :=
  scene.meshes.foldl (sceneFoldStep ray) { HitResult.noHit with t := fltMax }

/-- raytracer/shading.h: Blinn-Phong coefficients with the source defaults
kd = 0.75, ks = 0.15, ambient = 0.20, shininess = 16. -/
structure ShadingParams where
  kd : ℚ := 3/4
  ks : ℚ := 3/20
  ambient : ℚ := 1/5
  shininess : ℚ := 16
  deriving DecidableEq, Repr

/-- shading.cpp isInShadow: offset the origin along the normal by 1e-3,
return false when the distance to the light is below 1e-6, otherwise cast
the normalized shadow ray and report a blocker strictly before the light. -/
def isInShadow (fm : FloatModel) (point normal lightPos : Vec3) (scene : Scene) : Bool :=
  let origin := point + normal.smul (1/1000)
  let toLight := lightPos - origin
  let distToLight := Vec3.length fm toLight
  if distToLight < 1/1000000 then false
  else
    let dir := toLight.divs distToLight
    let hit := intersectScene ⟨origin, dir⟩ scene
    hit.hit ∧ decide (hit.t < distToLight)

/-- shading.cpp shade (the revision taking a shadowFactor): ambient plus
visibility-scaled diffuse and Blinn-Phong specular terms; a negative
shadowFactor falls back to the hard shadow test; the alpha channel is
restored to the texture alpha before the final componentwise clamp. -/
def shade (fm : FloatModel) (hit : HitResult) (viewDir : Vec3) (light : Light)
    (scene : Scene) (params : ShadingParams) (shadowFactor : ℚ) : Color :=
  let texColor := hit.textureColor
  let originalAlpha := texColor.a
  let ambient := texColor.scale params.ambient
  let lv := (light.position - hit.point).normalize fm
  let nv := hit.normal.normalize fm
  let vv := viewDir.normalize fm
  let visibility :=
    if shadowFactor < 0 then
      if isInShadow fm hit.point nv light.position scene then 0 else 1
    else shadowFactor
  let ndotl := max 0 (nv.dot lv)
  let diffuse := (texColor.mulc light.color).scale (params.kd * ndotl * visibility)
  let hv := (lv + vv).normalize fm
  let ndoth := max 0 (nv.dot hv)
  let specFactor := fm.powq ndoth params.shininess
  let specular := light.color.scale (params.ks * specFactor * visibility)
  let result0 := ambient + diffuse + specular
  Color.clamp ⟨result0.r, result0.g, result0.b, originalAlpha⟩

/-- Modelled from the spec: the closed-form Blinn-Phong expression of
section 4.3, written per channel as
ambient*texColor + kd*max(0,N.L)*texColor*lightColor*visibility
+ ks*pow(max(0,N.H),shininess)*lightColor*visibility with
H = normalize(L+V); it is the specification-side formula that claim C7
compares the implementation against. -/
def blinnPhongSpecFormula (fm : FloatModel) (hit : HitResult) (viewDir : Vec3)
    (light : Light) (params : ShadingParams) (visibility : ℚ) : Color :=
  let texColor := hit.textureColor
  let lv := (light.position - hit.point).normalize fm
  let nv := hit.normal.normalize fm
  let vv := viewDir.normalize fm
  let ndotl := max 0 (nv.dot lv)
  let hv := (lv + vv).normalize fm
  let ndoth := max 0 (nv.dot hv)
  let spec := fm.powq ndoth params.shininess
  ⟨params.ambient * texColor.r
     + params.kd * ndotl * texColor.r * light.color.r * visibility
     + params.ks * spec * light.color.r * visibility,
   params.ambient * texColor.g
     + params.kd * ndotl * texColor.g * light.color.g * visibility
     + params.ks * spec * light.color.g * visibility,
   params.ambient * texColor.b
     + params.kd * ndotl * texColor.b * light.color.b * visibility
     + params.ks * spec * light.color.b * visibility,
   params.ambient * texColor.a⟩

/-- raytracer/raytracer.h RayTracer::Config with the source defaults. -/
structure RTConfig where
  width : ℕ := 256
  height : ℕ := 256
  maxBounces : ℕ := 3
  samplesPerPixel : ℕ := 1
  tileSize : ℕ := 32
  threadCount : ℕ := 0
  softShadows : Bool := true
  shadowSamples : ℕ := 8
  aoEnabled : Bool := false
  aoSamples : ℕ := 8
  aoRadius : ℚ := 3
  aoIntensity : ℚ := 1/2
  dofEnabled : Bool := false
  aperture : ℚ := 1/2
  focusDistance : ℚ := 0
  gradientBg : Bool := true
  gradientScale : ℚ := 1
  bgCenter : Color := ⟨91/100, 89/100, 86/100, 1⟩
  bgEdge : Color := ⟨56/100, 63/100, 71/100, 1⟩
  deriving DecidableEq, Repr

/-- raytracer.cpp backgroundColor: with the gradient enabled, a radial
gradient from bgCenter to bgEdge with distance clamped and squared;
otherwise the flat scene background color. -/
def backgroundColor (fm : FloatModel) (scene : Scene) (u v : ℚ) (config : RTConfig) : Color :=
  if config.gradientBg then
    let cx := u - 1/2
    let cy := v - 1/2
    let dist := clamp01 (fm.sqrtq (cx * cx + cy * cy) * 2)
    let t := dist * dist
    ⟨config.bgCenter.r * (1 - t) + config.bgEdge.r * t,
     config.bgCenter.g * (1 - t) + config.bgEdge.g * t,
     config.bgCenter.b * (1 - t) + config.bgEdge.b * t, 1⟩
  else scene.backgroundColor

/-- The background value used by the base case of traceRay: the gradient at
the image center when a config is present, the flat scene background
otherwise. -/
def bgBase (fm : FloatModel) (scene : Scene) (config : Option RTConfig) : Color :=
  match config with
  | some c => backgroundColor fm scene (1/2) (1/2) c
  | none => scene.backgroundColor

/-- raytracer.cpp computeAO: cosine-weighted hemisphere sampling in a local
frame built from the normal; each sample draws two stream values, casts an
offset ray, and counts occlusion when the scene is hit strictly within the
radius; returns one minus the occluded fraction. -/
def computeAO (fm : FloatModel) (point normal : Vec3) (scene : Scene)
    (samples : ℕ) (radius : ℚ) (seed : ℕ) : ℚ :=
  let nv := normal.normalize fm
  let tv :=
    if |nv.x| < 9/10 then (Vec3.cross ⟨1, 0, 0⟩ nv).normalize fm
    else (Vec3.cross ⟨0, 1, 0⟩ nv).normalize fm
  let bv := nv.cross tv
  let occluded :=
    (List.range samples).countP (fun i =>
      let r1 := fm.rand seed (2 * i)
      let r2 := fm.rand seed (2 * i + 1)
      let sinTheta := fm.sqrtq (1 - r1)
      let cosTheta := fm.sqrtq r1
      let phi := 2 * fm.piq * r2
      let localDir : Vec3 := ⟨sinTheta * fm.cosq phi, cosTheta, sinTheta * fm.sinq phi⟩
      let worldDir := (tv.smul localDir.x + nv.smul localDir.y + bv.smul localDir.z).normalize fm
      let aoRay : Ray := ⟨point + nv.smul (1/1000), worldDir⟩
      let hit := intersectScene aoRay scene
      hit.hit ∧ decide (hit.t < radius))
  1 - (occluded : ℚ) / (samples : ℚ)

/-- The reflectivity constant SKIN_REFLECTIVITY = 0.1. -/
def skinReflectivity : ℚ := 1/10

/-- Fuel-indexed body of RayTracer::traceRay.  The fuel argument counts the
remaining allowed nesting; traceRay instantiates it with
maxBounces + 1 - depth, which is exactly the depth budget of the C++
recursion, so each reflection call consumes one unit.  Zero fuel means
depth exceeds maxBounces and returns the base-case background. -/
def traceRayAux (fm : FloatModel) (scene : Scene) (params : ShadingParams)
    (config : Option RTConfig) : ℕ → Ray → ℕ → ℕ → Color
  | 0, _, _, _ => bgBase fm scene config
  | fuel + 1, ray, depth, maxBounces =>
    if depth > maxBounces then bgBase fm scene config
    else
      let hit := intersectScene ray scene
      if ¬hit.hit then
        if depth = 0 ∧ config.isSome then bgBase fm scene config
        else scene.backgroundColor
      else
        let viewDir := (ray.origin - hit.point).normalize fm
        let shadedColor := shade fm hit viewDir scene.light scene params (-1)
        let originalAlpha := shadedColor.a
        let afterAO :=
          match config with
          | some c =>
            if c.aoEnabled ∧ depth = 0 then
              let aoSeed := fm.seedCast
                (hit.point.x * 73856093 + hit.point.y * 19349663 + hit.point.z * 83492791)
              let ao := computeAO fm hit.point hit.normal scene c.aoSamples c.aoRadius aoSeed
              let aoFactor := 1 - c.aoIntensity * (1 - ao)
              ⟨shadedColor.r * aoFactor, shadedColor.g * aoFactor,
               shadedColor.b * aoFactor, shadedColor.a⟩
            else shadedColor
          | none => shadedColor
        let blended :=
          if depth < maxBounces then
            let nv := hit.normal.normalize fm
            let dv := ray.direction.normalize fm
            let reflectDir := (dv - nv.smul (2 * dv.dot nv)).normalize fm
            let reflectOrigin := hit.point + nv.smul (1/1000)
            let reflectedColor :=
              traceRayAux fm scene params config fuel ⟨reflectOrigin, reflectDir⟩ (depth + 1) maxBounces
            afterAO.scale (1 - skinReflectivity) + reflectedColor.scale skinReflectivity
          else afterAO
        Color.clamp ⟨blended.r, blended.g, blended.b, originalAlpha⟩

/-- RayTracer::traceRay: the recursion of raytracer.cpp, run with the exact
depth budget maxBounces + 1 - depth. -/
def traceRay (fm : FloatModel) (scene : Scene) (params : ShadingParams)
    (config : Option RTConfig) (ray : Ray) (depth maxBounces : ℕ) : Color :=
  traceRayAux fm scene params config (maxBounces + 1 - depth) ray depth maxBounces

/-- skin parser output consumed by the mesh builder: six named texture
regions for one body part and layer. -/
structure BodyPartTexture where
  top : TextureRegion
  bottom : TextureRegion
  front : TextureRegion
  back : TextureRegion
  left : TextureRegion
  right : TextureRegion
  deriving DecidableEq, Repr

/-- skin parser output: the twelve body part texture sets (six parts, inner
and outer layer each). -/
structure SkinData where
  head : BodyPartTexture
  headOuter : BodyPartTexture
  body : BodyPartTexture
  bodyOuter : BodyPartTexture
  rightArm : BodyPartTexture
  rightArmOuter : BodyPartTexture
  leftArm : BodyPartTexture
  leftArmOuter : BodyPartTexture
  rightLeg : BodyPartTexture
  rightLegOuter : BodyPartTexture
  leftLeg : BodyPartTexture
  leftLegOuter : BodyPartTexture
  deriving DecidableEq, Repr

/-- mesh_builder.cpp isRegionFullyTransparent: every pixel has alpha
exactly 0. -/
def isRegionFullyTransparent (region : TextureRegion) : Bool :=
  region.pixels.all (fun pixel => pixel.a = 0)

/-- MeshBuilder::isFullyTransparent: all six faces fully transparent. -/
def isFullyTransparent (tex : BodyPartTexture) : Bool :=
  isRegionFullyTransparent tex.top ∧ isRegionFullyTransparent tex.bottom
    ∧ isRegionFullyTransparent tex.front ∧ isRegionFullyTransparent tex.back
    ∧ isRegionFullyTransparent tex.left ∧ isRegionFullyTransparent tex.right

/-- The two triangles of one quad face as added by the addFace lambda of
MeshBuilder::buildBox, including its fixed UV assignment. -/
def addFace (a b c d normal : Vec3) (texRegion : TextureRegion) : List Triangle :=
  [⟨a, b, c, normal, 0, 0, 1, 0, 1, 1, some texRegion⟩,
   ⟨a, c, d, normal, 0, 0, 1, 1, 0, 1, some texRegion⟩]

/-- MeshBuilder::buildBox: a box mesh centered at position with the given
size inflated by the offset; offset strictly positive marks the outer
layer; the six faces are added in the order front back left right top
bottom with outward normals. -/
def buildBox (tex : BodyPartTexture) (position size : Vec3) (offset : ℚ) : Mesh :=
  let owned := [tex.front, tex.back, tex.left, tex.right, tex.top, tex.bottom]
  let hw := size.x / 2 + offset
  let hh := size.y / 2 + offset
  let hd := size.z / 2 + offset
  let px := position.x
  let py := position.y
  let pz := position.z
  let v000 : Vec3 := ⟨px - hw, py - hh, pz - hd⟩
  let v100 : Vec3 := ⟨px + hw, py - hh, pz - hd⟩
  let v010 : Vec3 := ⟨px - hw, py + hh, pz - hd⟩
  let v110 : Vec3 := ⟨px + hw, py + hh, pz - hd⟩
  let v001 : Vec3 := ⟨px - hw, py - hh, pz + hd⟩
  let v101 : Vec3 := ⟨px + hw, py - hh, pz + hd⟩
  let v011 : Vec3 := ⟨px - hw, py + hh, pz + hd⟩
  let v111 : Vec3 := ⟨px + hw, py + hh, pz + hd⟩
  { triangles :=
      addFace v010 v110 v100 v000 ⟨0, 0, -1⟩ tex.front
        ++ addFace v111 v011 v001 v101 ⟨0, 0, 1⟩ tex.back
        ++ addFace v110 v111 v101 v100 ⟨1, 0, 0⟩ tex.left
        ++ addFace v011 v010 v000 v001 ⟨-1, 0, 0⟩ tex.right
        ++ addFace v011 v111 v110 v010 ⟨0, 1, 0⟩ tex.top
        ++ addFace v000 v100 v101 v001 ⟨0, -1, 0⟩ tex.bottom,
    isOuterLayer := offset > 0,
    ownedTextures := owned }

/-- One row of the PartDef table in MeshBuilder::buildScene: the inner and
outer texture sets, the center position and the box size of a body part. -/
structure PartDef where
  inner : BodyPartTexture
  outer : BodyPartTexture
  position : Vec3
  size : Vec3
  deriving DecidableEq, Repr

/-- The six part definitions of MeshBuilder::buildScene. -/
def partDefs (skin : SkinData) : List PartDef :=
  [⟨skin.head, skin.headOuter, ⟨0, 28, 0⟩, ⟨8, 8, 8⟩⟩,
   ⟨skin.body, skin.bodyOuter, ⟨0, 18, 0⟩, ⟨8, 12, 4⟩⟩,
   ⟨skin.rightArm, skin.rightArmOuter, ⟨-6, 18, 0⟩, ⟨4, 12, 4⟩⟩,
   ⟨skin.leftArm, skin.leftArmOuter, ⟨6, 18, 0⟩, ⟨4, 12, 4⟩⟩,
   ⟨skin.rightLeg, skin.rightLegOuter, ⟨-2, 6, 0⟩, ⟨4, 12, 4⟩⟩,
   ⟨skin.leftLeg, skin.leftLegOuter, ⟨2, 6, 0⟩, ⟨4, 12, 4⟩⟩]

/-- MeshBuilder::buildScene (mesh_builder.cpp): for each part push the
inner-layer box (offset 0), then the outer-layer box (offset 0.5) unless
its texture set is fully transparent; then install the default light,
camera and background. -/
def buildScene (skin : SkinData) : Scene :=
  let meshes :=
    (partDefs skin).foldl
      (fun acc part =>
        let acc1 := acc ++ [buildBox part.inner part.position part.size 0]
        if isFullyTransparent part.outer then acc1
        else acc1 ++ [buildBox part.outer part.position part.size (1/2)])
      []
  { meshes := meshes,
    light := ⟨⟨0, 40, 30⟩, ⟨1, 1, 1, 1⟩, 1, 3⟩,
    camera := ⟨⟨0, 18, 50⟩, ⟨0, 18, 0⟩, ⟨0, 1, 0⟩, 60⟩,
    backgroundColor := ⟨1/5, 3/10, 1/2, 1⟩ }

/-- raytracer/tile_renderer.h Tile: a rectangular sub-region of the output
image. -/
structure Tile where
  x : ℕ
  y : ℕ
  width : ℕ
  height : ℕ
  deriving DecidableEq, Repr

/-- TileRenderer::generateTiles: a row-major grid of ceil(w/ts) by
ceil(h/ts) tiles aligned to the tile size with boundary tiles clipped to
the image extent; nonpositive arguments (zero in this embedding of the
C++ int guard) yield the empty list. -/
def generateTiles (imageWidth imageHeight tileSize : ℕ) : List Tile :=
  if imageWidth = 0 ∨ imageHeight = 0 ∨ tileSize = 0 then []
  else
    let cols := (imageWidth + tileSize - 1) / tileSize
    let rows := (imageHeight + tileSize - 1) / tileSize
    (List.range rows).flatMap (fun ty =>
      (List.range cols).map (fun tx =>
        ⟨tx * tileSize, ty * tileSize,
         min tileSize (imageWidth - tx * tileSize),
         min tileSize (imageHeight - ty * tileSize)⟩))

/-- Camera::generateRay (camera.cpp): look-at basis, image-plane
half-extents from the field of view, v inverted so v = 0 is the top, and a
normalized direction. -/
def generateRay (fm : FloatModel) (cam : Camera) (u v aspect : ℚ) : Ray :=
  let forward := (cam.target - cam.position).normalize fm
  let rightv := (forward.cross cam.up).normalize fm
  let trueUp := rightv.cross forward
  let halfH := fm.tanq (cam.fov * (1/2) * fm.piq / 180)
  let halfW := halfH * aspect
  let su := (2 * u - 1) * halfW
  let sv := (2 * (1 - v) - 1) * halfH
  let dir := (forward + rightv.smul su + trueUp.smul sv).normalize fm
  ⟨cam.position, dir⟩

/-- Membership of a pixel in a tile rectangle. -/
def inTile (tile : Tile) (px py : ℕ) : Prop :=
  tile.x ≤ px ∧ px < tile.x + tile.width ∧ tile.y ≤ py ∧ py < tile.y + tile.height

instance (tile : Tile) (px py : ℕ) : Decidable (inTile tile px py) := by
  unfold inTile; infer_instance

/-- The per-tile deterministic seed of TileRenderer::renderTile:
tile.y * config.width + tile.x, a function of the tile coordinates only. -/
def tileSeed (config : RTConfig) (tile : Tile) : ℕ := tile.y * config.width + tile.x

/-- The color of one pixel computed by the pixel loop of
TileRenderer::renderTile (the revision without depth of field): average of
spp jittered samples; the jitter values are consecutive draws of the
tile-seeded stream in row-major pixel order, two per sample, or the fixed
center 0.5 for a single sample. -/
def renderPixel (fm : FloatModel) (scene : Scene) (config : RTConfig)
    (tile : Tile) (px py : ℕ) : Color :=
  let aspect := (config.width : ℚ) / (config.height : ℚ)
  let spp := max 1 config.samplesPerPixel
  let seed := tileSeed config tile
  let base := ((py - tile.y) * tile.width + (px - tile.x)) * spp
  let accum :=
    (List.range spp).foldl
      (fun acc s =>
        let jx := if spp = 1 then 1/2 else fm.rand seed (2 * (base + s))
        let jy := if spp = 1 then 1/2 else fm.rand seed (2 * (base + s) + 1)
        let u := ((px : ℚ) + jx) / (config.width : ℚ)
        let v := ((py : ℚ) + jy) / (config.height : ℚ)
        let ray := generateRay fm scene.camera u v aspect
        acc + traceRay fm scene {} none ray 0 config.maxBounces)
      ⟨0, 0, 0, 0⟩
  accum.scale (1 / (spp : ℚ))

/-- The output image as a pixel function; Image(w,h) default-constructs
every pixel, giving Color(). -/
structure RImage where
  width : ℕ
  height : ℕ
  pix : ℕ → ℕ → Color

/-- The freshly constructed output Image of TileRenderer::render. -/
def initImage (w h : ℕ) : RImage := ⟨w, h, fun _ _ => Color.default0⟩

/-- TileRenderer::renderTile as an image transformer: every pixel of the
tile rectangle receives its rendered color, all other pixels are
unchanged. -/
def writeTile (fm : FloatModel) (scene : Scene) (config : RTConfig)
    (tile : Tile) (img : RImage) : RImage :=
  { img with
    pix := fun x y =>
      if inTile tile x y then renderPixel fm scene config tile x y else img.pix x y }

/-- The empty tile used as the lookup default for out-of-range tile
indices; writing it changes nothing. -/
def emptyTile : Tile := ⟨0, 0, 0, 0⟩

/-- TileRenderer::render with an explicit tile execution order: the worker
threads claim tile indices from the shared atomic counter, so one complete
render executes every tile index exactly once in some order that is the
only thing the thread count can influence; tiles cover disjoint pixel
rectangles, so interleaving within a schedule cannot affect any pixel. -/
def renderStep (fm : FloatModel) (scene : Scene) (config : RTConfig)
    (img : RImage) (i : ℕ) : RImage :=
  writeTile fm scene config
    ((generateTiles config.width config.height config.tileSize).getD i emptyTile) img

def renderWithOrder (fm : FloatModel) (scene : Scene) (config : RTConfig)
    (order : List ℕ) : RImage :=
  order.foldl (renderStep fm scene config) (initImage config.width config.height)

/-- A 1 by 1 solid red texture used by concrete instances. -/
def redTex : TextureRegion := ⟨1, 1, [⟨1, 0, 0, 1⟩]⟩

/-- A 1 by 1 solid blue texture used by concrete instances. -/
def blueTex : TextureRegion := ⟨1, 1, [⟨0, 0, 1, 1⟩]⟩

/-- A 1 by 1 fully transparent texture (alpha exactly 0). -/
def clearTex : TextureRegion := ⟨1, 1, [⟨0, 0, 0, 0⟩]⟩

/-- A degenerate texture region with an empty pixel vector. -/
def emptyTex : TextureRegion := ⟨0, 0, []⟩

/-- A degenerate triangle sitting at a single corner point: the
intersection engine reads triangles only through the axis-aligned bounding
box of their vertices and through their texture references, so corner
triangles give the smallest meshes that exercise it. -/
def mkTri (v : Vec3) (tex : Option TextureRegion) : Triangle :=
  ⟨v, v, v, ⟨0, 0, 0⟩, 0, 0, 1, 0, 1, 1, tex⟩

/-- The default scene light used by concrete instances. -/
def lightD : Light := ⟨⟨0, 40, 30⟩, ⟨1, 1, 1, 1⟩, 1, 3⟩

/-- The default scene camera used by concrete instances. -/
def camD : Camera := ⟨⟨0, 18, 50⟩, ⟨0, 18, 0⟩, ⟨0, 1, 0⟩, 60⟩

/-- A red box mesh on [-1,1]^3: its +Z back face (face pair 1, triangle
index 2) carries the red texture. -/
def meshA : Mesh :=
  ⟨[mkTri ⟨-1, -1, -1⟩ none, mkTri ⟨1, 1, 1⟩ none, mkTri ⟨1, 1, 1⟩ (some redTex)],
   false, []⟩

/-- A blue box mesh with exactly the geometry of meshA. -/
def meshB : Mesh :=
  ⟨[mkTri ⟨-1, -1, -1⟩ none, mkTri ⟨1, 1, 1⟩ none, mkTri ⟨1, 1, 1⟩ (some blueTex)],
   false, []⟩

/-- A ray from (0,0,5) toward -Z, hitting the origin boxes at t = 4 on the
+Z face. -/
def ray0 : Ray := ⟨⟨0, 0, 5⟩, ⟨0, 0, -1⟩⟩

/-- Scene holding the red box before the blue box. -/
def sceneAB : Scene := ⟨[meshA, meshB], lightD, camD, ⟨0, 0, 0, 1⟩⟩

/-- Scene holding the blue box before the red box: the same mesh multiset
as sceneAB in the other order. -/
def sceneBA : Scene := ⟨[meshB, meshA], lightD, camD, ⟨0, 0, 0, 1⟩⟩

/-- An outer-layer box on [0,1]^3 whose -Z front face (face pair 0) is
fully transparent and whose +X left face (face pair 2, triangle index 4)
is solid red. -/
def grazeMesh : Mesh :=
  ⟨[mkTri ⟨0, 0, 0⟩ (some clearTex), mkTri ⟨1, 1, 1⟩ none, mkTri ⟨1, 1, 1⟩ none,
    mkTri ⟨1, 1, 1⟩ none, mkTri ⟨1, 1, 1⟩ (some redTex)],
   true, []⟩

/-- A ray that grazes the [0,1]^3 box exactly along the edge shared by the
-Z entry face and the +X exit face: entry and exit parameters are both
1. -/
def grazeRay : Ray := ⟨⟨0, 1/2, -1⟩, ⟨1, 0, 1⟩⟩

/-- An outer-layer box on [-1,1]^3 whose -Z front face is transparent and
whose +Z back face is solid red. -/
def fbMesh : Mesh :=
  ⟨[mkTri ⟨-1, -1, -1⟩ (some clearTex), mkTri ⟨1, 1, 1⟩ none,
    mkTri ⟨1, 1, 1⟩ (some redTex)],
   true, []⟩

/-- A ray entering fbMesh through the transparent -Z face at t = 4 and
leaving through the opaque +Z face at t = 6. -/
def fbRay : Ray := ⟨⟨0, 0, -5⟩, ⟨0, 0, 1⟩⟩

/-- A box on [-1,1]^3 whose -Z front face texture region is the degenerate
empty region. -/
def emptyFrontMesh : Mesh :=
  ⟨[mkTri ⟨-1, -1, -1⟩ (some emptyTex), mkTri ⟨1, 1, 1⟩ none], false, []⟩

/-- A fully lit white hit at the origin with normal +Z used by the shading
instances. -/
def hitW : HitResult := ⟨true, 4, ⟨0, 0, 0⟩, ⟨0, 0, 1⟩, ⟨1, 1, 1, 1⟩, false⟩

/-- A light directly above the shading test point along +Z. -/
def lightZ : Light := ⟨⟨0, 0, 1⟩, ⟨1, 1, 1, 1⟩, 1, 3⟩

/-- A scene with no meshes, so nothing is ever in shadow. -/
def emptyScene : Scene := ⟨[], lightZ, camD, ⟨0, 0, 0, 1⟩⟩

/-- An opaque box spanning [-1,1] in x and y and [1,3] in z: it straddles
the segment from the origin to a light at (0,0,5). -/
def blockerMesh : Mesh :=
  ⟨[mkTri ⟨-1, -1, 1⟩ (some redTex), mkTri ⟨1, 1, 3⟩ none], false, []⟩

/-- A scene whose only mesh blocks the path from the origin to the light
at (0,0,5). -/
def blockerScene : Scene :=
  ⟨[blockerMesh], ⟨⟨0, 0, 5⟩, ⟨1, 1, 1, 1⟩, 1, 3⟩, camD, ⟨0, 0, 0, 1⟩⟩

/-- A small configuration producing exactly two 1 by 1 tiles. -/
def twoTileConfig : RTConfig :=
  { width := 2, height := 1, maxBounces := 0, samplesPerPixel := 1, tileSize := 1 }

/-- The tile of the row-major grid at column tx and row ty, as constructed
in the generateTiles double loop. -/
def tileAt (w h ts tx ty : ℕ) : Tile :=
  ⟨tx * ts, ty * ts, min ts (w - tx * ts), min ts (h - ty * ts)⟩

/-- Distinctness of hit parameters between two meshes on a given ray:
whenever both meshes report a hit, their hit parameters differ.  This is
the no-tie side condition of the permutation-invariance claim. -/
def tDistinct (ray : Ray) (m1 m2 : Mesh) : Prop :=
  (intersectMesh ray m1).hit = true → (intersectMesh ray m2).hit = true →
    (intersectMesh ray m1).t ≠ (intersectMesh ray m2).t

@[simp] theorem vec3_hadd (a b c d e f : ℚ) :
    (Vec3.mk a b c) + (Vec3.mk d e f) = Vec3.mk (a + d) (b + e) (c + f) := rfl

@[simp] theorem vec3_hsub (a b c d e f : ℚ) :
    (Vec3.mk a b c) - (Vec3.mk d e f) = Vec3.mk (a - d) (b - e) (c - f) := rfl

@[simp] theorem color_hadd (a b c d e f g h : ℚ) :
    (Color.mk a b c d) + (Color.mk e f g h) = Color.mk (a + e) (b + f) (c + g) (d + h) := rfl

@[simp] theorem clampZ_zero_bounds (v : ℤ) : clampZ v 0 0 = 0 := by
  unfold clampZ
  omega

theorem clamp01_eq_self {q : ℚ} (h0 : 0 ≤ q) (h1 : q ≤ 1) : clamp01 q = q := by
  unfold clamp01
  rw [max_eq_left h0, min_eq_left h1]

theorem shade_alpha (fm : FloatModel) (hit : HitResult) (viewDir : Vec3)
    (light : Light) (scene : Scene) (params : ShadingParams) (sf : ℚ) :
    (shade fm hit viewDir light scene params sf).a = clamp01 hit.textureColor.a := by
  simp [shade, Color.clamp]

theorem traceRayAux_fuel_irrel (fm : FloatModel) (scene : Scene)
    (params : ShadingParams) (config : Option RTConfig) :
    ∀ f1 f2 ray depth maxBounces, maxBounces + 1 - depth ≤ f1 →
      maxBounces + 1 - depth ≤ f2 →
      traceRayAux fm scene params config f1 ray depth maxBounces
        = traceRayAux fm scene params config f2 ray depth maxBounces := by
  intro f1
  induction f1 with
  | zero =>
    intro f2 ray depth maxBounces h1 h2
    have hd : depth > maxBounces := by omega
    have hf2 : maxBounces + 1 - depth = 0 := by omega
    cases f2 with
    | zero => rfl
    | succ f2 => simp [traceRayAux, hd]
  | succ f1 ih =>
    intro f2 ray depth maxBounces h1 h2
    cases f2 with
    | zero =>
      have hd : depth > maxBounces := by omega
      simp [traceRayAux, hd]
    | succ f2 =>
      by_cases hd : depth > maxBounces
      · simp [traceRayAux, hd]
      · have hlt : maxBounces + 1 - (depth + 1) ≤ f1 := by omega
        have hlt2 : maxBounces + 1 - (depth + 1) ≤ f2 := by omega
        simp only [traceRayAux, hd, if_false]
        rw [ih f2 _ (depth + 1) maxBounces hlt hlt2]

/-- C3: traceRay called with depth strictly greater than maxBounces returns
exactly the base-case background color, for every scene, shading
parameters and configuration (no scene intersection is involved), and the
recursion is bounded: every fuel budget of at least maxBounces + 1 - depth
computes the same value as traceRay, so maxBounces + 1 nested calls always
suffice from depth 0. -/
theorem traceRay_depth_exceeds_maxBounces (fm : FloatModel) (scene : Scene)
    (params : ShadingParams) (config : Option RTConfig) (ray : Ray)
    (depth maxBounces : ℕ) :
    (depth > maxBounces →
      traceRay fm scene params config ray depth maxBounces = bgBase fm scene config)
    ∧ (∀ fuel, maxBounces + 1 - depth ≤ fuel →
        traceRayAux fm scene params config fuel ray depth maxBounces
          = traceRay fm scene params config ray depth maxBounces) := by
  constructor
  · intro hd
    have hf : maxBounces + 1 - depth = 0 := by omega
    simp [traceRay, hf, traceRayAux]
  · intro fuel hfuel
    exact traceRayAux_fuel_irrel fm scene params config fuel
      (maxBounces + 1 - depth) ray depth maxBounces hfuel (le_refl _)

/-- C3 witness: at depth 5 with maxBounces 3 over a nonempty concrete
scene, traceRay returns the base-case background. -/
theorem traceRay_depth_exceeds_maxBounces_witness :
    traceRay qModel sceneAB {} none ray0 5 3 = bgBase qModel sceneAB none :=
  (traceRay_depth_exceeds_maxBounces qModel sceneAB {} none ray0 5 3).1 (by decide)

theorem intersectMesh_entry_case (ray : Ray) (mesh : Mesh) (st : SlabState)
    (hne : ¬mesh.triangles = [])
    (hscan : slabScan ray (computeAABB mesh).1 (computeAABB mesh).2 = some st)
    (htmin : 0 ≤ st.tmin) :
    intersectMesh ray mesh =
      (let bmin := (computeAABB mesh).1
       let bmax := (computeAABB mesh).2
       let texColor := faceSample mesh (ray.at st.tmin) bmin bmax st.hitAxis st.hitNegSide
       if texColor.a = 0 then
         if ¬mesh.isOuterLayer then HitResult.noHit
         else if st.tmax > st.tmin then
           let e2 := exitScan ray bmin bmax
           let backPoint := ray.at st.tmax
           let backTexColor := faceSample mesh backPoint bmin bmax e2.exitAxis e2.exitNegSide
           if backTexColor.a > 0 then
             ⟨true, st.tmax, backPoint,
              (determineFace mesh e2.exitAxis e2.exitNegSide).normal.smul (-1),
              backTexColor, true⟩
           else HitResult.noHit
         else HitResult.noHit
       else
         ⟨true, st.tmin, ray.at st.tmin,
          (determineFace mesh st.hitAxis st.hitNegSide).normal, texColor,
          mesh.isOuterLayer⟩) := by
  have h1 : ¬(st.tmin < 0) := not_lt.mpr htmin
  simp only [intersectMesh, hne, if_false, hscan, h1, false_and, if_neg,
    not_false_eq_true, ite_false]

/-- C10: sampling a texture region with nonpositive width or height or an
empty pixel vector returns the default Color (0,0,0,1), opaque black; as a
consequence, when the entry face of a slab hit resolves to such a
degenerate region, intersectMesh reports an opaque hit carrying (0,0,0,1)
instead of an alpha-0 pass-through miss. -/
theorem sample_empty_region_opaque_black :
    (∀ (tr : TextureRegion) (u v : ℚ),
      tr.width ≤ 0 ∨ tr.height ≤ 0 ∨ tr.pixels = [] →
      tr.sample u v = Color.default0)
    ∧ (∀ (ray : Ray) (mesh : Mesh) (st : SlabState) (tr : TextureRegion),
        ¬mesh.triangles = [] →
        slabScan ray (computeAABB mesh).1 (computeAABB mesh).2 = some st →
        0 ≤ st.tmin →
        (determineFace mesh st.hitAxis st.hitNegSide).texture = some tr →
        tr.width ≤ 0 ∨ tr.height ≤ 0 ∨ tr.pixels = [] →
        intersectMesh ray mesh =
          ⟨true, st.tmin, ray.at st.tmin,
           (determineFace mesh st.hitAxis st.hitNegSide).normal,
           Color.default0, mesh.isOuterLayer⟩) := by
  have hsample : ∀ (tr : TextureRegion) (u v : ℚ),
      tr.width ≤ 0 ∨ tr.height ≤ 0 ∨ tr.pixels = [] →
      tr.sample u v = Color.default0 := by
    intro tr u v hdeg
    simp [TextureRegion.sample, hdeg]
  refine ⟨hsample, ?_⟩
  intro ray mesh st tr hne hscan htmin htex hdeg
  rw [intersectMesh_entry_case ray mesh st hne hscan htmin]
  have hface : faceSample mesh (ray.at st.tmin) (computeAABB mesh).1 (computeAABB mesh).2
      st.hitAxis st.hitNegSide = Color.default0 := by
    simp only [faceSample]
    rw [htex]
    exact hsample tr _ _ hdeg
  simp only [hface]
  norm_num [Color.default0]


/-- C10 witness: a box whose -Z face texture region is empty, hit head-on
by a ray from the front, reports an opaque (0,0,0,1) hit at the entry
parameter 4 rather than a transparent miss. -/
theorem sample_empty_region_opaque_black_witness :
    intersectMesh fbRay emptyFrontMesh =
      ⟨true, (4 : ℚ), ⟨0, 0, -1⟩, ⟨0, 0, -1⟩, Color.default0, false⟩ := by
  have h := (sample_empty_region_opaque_black).2 fbRay emptyFrontMesh ⟨4, 6, 2, true⟩ emptyTex
    (by simp [emptyFrontMesh])
    (by norm_num [slabScan, slabAxisStep, computeAABB, emptyFrontMesh, mkTri,
      emptyTex, fbRay, fltMax, Option.bind])
    (by norm_num)
    (by simp [determineFace, emptyFrontMesh, mkTri, emptyTex])
    (by norm_num [emptyTex])
  norm_num [fbRay, Ray.at, Vec3.smul, determineFace, emptyFrontMesh, mkTri] at h
  exact h

/-- C1 (amended): when the entry slab scan succeeds with a nonnegative
entry parameter and the sampled texture alpha at the entry face is exactly
0, intersectMesh is a miss for an inner-layer mesh; for an outer-layer
mesh the exit face is tried once as a fallback, but only when the exit
parameter strictly exceeds the entry parameter: a positive far-face alpha
then yields a hit at the exit parameter on the far face with the flipped
far-face normal, a nonpositive far-face alpha yields a non-hit, and when
the entry and exit parameters coincide (a ray grazing an edge) the result
is a non-hit even for an outer layer with an opaque far face. -/
theorem intersectMesh_alpha_zero_fallback (ray : Ray) (mesh : Mesh) (st : SlabState)
    (hne : ¬mesh.triangles = [])
    (hscan : slabScan ray (computeAABB mesh).1 (computeAABB mesh).2 = some st)
    (htmin : 0 ≤ st.tmin)
    (halpha : (faceSample mesh (ray.at st.tmin) (computeAABB mesh).1 (computeAABB mesh).2
        st.hitAxis st.hitNegSide).a = 0) :
    (mesh.isOuterLayer = false → intersectMesh ray mesh = HitResult.noHit)
    ∧ (st.tmax = st.tmin → intersectMesh ray mesh = HitResult.noHit)
    ∧ (mesh.isOuterLayer = true → st.tmin < st.tmax →
        (0 < (faceSample mesh (ray.at st.tmax) (computeAABB mesh).1 (computeAABB mesh).2
            (exitScan ray (computeAABB mesh).1 (computeAABB mesh).2).exitAxis
            (exitScan ray (computeAABB mesh).1 (computeAABB mesh).2).exitNegSide).a →
          intersectMesh ray mesh =
            ⟨true, st.tmax, ray.at st.tmax,
             (determineFace mesh
                (exitScan ray (computeAABB mesh).1 (computeAABB mesh).2).exitAxis
                (exitScan ray (computeAABB mesh).1 (computeAABB mesh).2).exitNegSide).normal.smul (-1),
             faceSample mesh (ray.at st.tmax) (computeAABB mesh).1 (computeAABB mesh).2
               (exitScan ray (computeAABB mesh).1 (computeAABB mesh).2).exitAxis
               (exitScan ray (computeAABB mesh).1 (computeAABB mesh).2).exitNegSide,
             true⟩)
        ∧ ((faceSample mesh (ray.at st.tmax) (computeAABB mesh).1 (computeAABB mesh).2
              (exitScan ray (computeAABB mesh).1 (computeAABB mesh).2).exitAxis
              (exitScan ray (computeAABB mesh).1 (computeAABB mesh).2).exitNegSide).a ≤ 0 →
            intersectMesh ray mesh = HitResult.noHit)) := by
  rw [intersectMesh_entry_case ray mesh st hne hscan htmin]
  refine ⟨?_, ?_, ?_⟩
  · intro houter
    simp [halpha, houter]
  · intro heq
    by_cases houter : mesh.isOuterLayer
    · simp [halpha, houter, heq, lt_irrefl]
    · simp [halpha, houter]
  · intro houter hlt
    constructor
    · intro hback
      simp [halpha, houter, hlt, hback]
    · intro hback
      have hnb : ¬(0 < (faceSample mesh (ray.at st.tmax) (computeAABB mesh).1
          (computeAABB mesh).2
          (exitScan ray (computeAABB mesh).1 (computeAABB mesh).2).exitAxis
          (exitScan ray (computeAABB mesh).1 (computeAABB mesh).2).exitNegSide).a) :=
        not_lt.mpr hback
      simp [halpha, houter, hlt, hnb]


/-- C1 counterexample: the claim as stated fails on a ray that grazes the
box exactly along an edge.  The ray enters the outer-layer mesh grazeMesh
on its fully transparent -Z face and exits through its solid red +X face
at the same parameter 1; the claim requires the far face to be tried and
hit there, but intersectMesh returns a non-hit because the fallback
demands an exit parameter strictly beyond the entry parameter. -/
theorem intersectMesh_alpha_zero_fallback_counterexample :
    grazeMesh.isOuterLayer = true
    ∧ computeAABB grazeMesh = (⟨0, 0, 0⟩, ⟨1, 1, 1⟩)
    ∧ slabScan grazeRay ⟨0, 0, 0⟩ ⟨1, 1, 1⟩ = some ⟨1, 1, 2, true⟩
    ∧ (faceSample grazeMesh (grazeRay.at 1) ⟨0, 0, 0⟩ ⟨1, 1, 1⟩ 2 true).a = 0
    ∧ exitScan grazeRay ⟨0, 0, 0⟩ ⟨1, 1, 1⟩ = ⟨1, 0, false⟩
    ∧ 0 < (faceSample grazeMesh (grazeRay.at 1) ⟨0, 0, 0⟩ ⟨1, 1, 1⟩ 0 false).a
    ∧ intersectMesh grazeRay grazeMesh = HitResult.noHit := by
  have hAABB : computeAABB grazeMesh = (⟨0, 0, 0⟩, ⟨1, 1, 1⟩) := by
    norm_num [computeAABB, grazeMesh, mkTri, fltMax]
  have hscan : slabScan grazeRay ⟨0, 0, 0⟩ ⟨1, 1, 1⟩ = some ⟨1, 1, 2, true⟩ := by
    norm_num [slabScan, slabAxisStep, grazeRay, fltMax, Option.bind]
  have halpha : (faceSample grazeMesh (grazeRay.at 1) ⟨0, 0, 0⟩ ⟨1, 1, 1⟩ 2 true).a = 0 := by
    norm_num [faceSample, determineFace, computeFaceUV, grazeMesh, mkTri,
      clearTex, TextureRegion.sample, clamp01, grazeRay, Ray.at, Vec3.smul]
  have hexit : exitScan grazeRay ⟨0, 0, 0⟩ ⟨1, 1, 1⟩ = ⟨1, 0, false⟩ := by
    norm_num [exitScan, exitAxisStep, grazeRay, fltMax]
  have hback : 0 < (faceSample grazeMesh (grazeRay.at 1) ⟨0, 0, 0⟩ ⟨1, 1, 1⟩ 0 false).a := by
    norm_num [faceSample, determineFace, computeFaceUV, grazeMesh, mkTri,
      redTex, TextureRegion.sample, clamp01, grazeRay, Ray.at, Vec3.smul]
  have hscan2 : slabScan grazeRay (computeAABB grazeMesh).1 (computeAABB grazeMesh).2
      = some ⟨1, 1, 2, true⟩ := by rw [hAABB]; exact hscan
  have halpha2 : (faceSample grazeMesh (grazeRay.at 1) (computeAABB grazeMesh).1
      (computeAABB grazeMesh).2 2 true).a = 0 := by rw [hAABB]; exact halpha
  have hmain : intersectMesh grazeRay grazeMesh = HitResult.noHit := by
    rw [intersectMesh_entry_case grazeRay grazeMesh ⟨1, 1, 2, true⟩
      (by simp [grazeMesh]) hscan2 (by norm_num)]
    simp only []
    norm_num [halpha2, show grazeMesh.isOuterLayer = true from rfl]
  exact ⟨rfl, hAABB, hscan, halpha, hexit, hback, hmain⟩

/-- C1 witness: on a non-grazing ray through the transparent -Z face of
the outer-layer mesh fbMesh, the fallback fires and intersectMesh hits the
solid +Z far face at the exit parameter 6 with the flipped normal. -/
theorem intersectMesh_alpha_zero_fallback_witness :
    intersectMesh fbRay fbMesh =
      ⟨true, 6, ⟨0, 0, 1⟩, ⟨0, 0, -1⟩, ⟨1, 0, 0, 1⟩, true⟩ := by
  have hAABB : computeAABB fbMesh = (⟨-1, -1, -1⟩, ⟨1, 1, 1⟩) := by
    norm_num [computeAABB, fbMesh, mkTri, fltMax]
  have hscan : slabScan fbRay (computeAABB fbMesh).1 (computeAABB fbMesh).2
      = some ⟨4, 6, 2, true⟩ := by
    rw [hAABB]
    norm_num [slabScan, slabAxisStep, fbRay, fltMax, Option.bind]
  have halpha : (faceSample fbMesh (fbRay.at (4 : ℚ)) (computeAABB fbMesh).1
      (computeAABB fbMesh).2 2 true).a = 0 := by
    rw [hAABB]
    norm_num [faceSample, determineFace, computeFaceUV, fbMesh, mkTri,
      clearTex, TextureRegion.sample, clamp01, fbRay, Ray.at, Vec3.smul]
  have hexit : exitScan fbRay (computeAABB fbMesh).1 (computeAABB fbMesh).2
      = ⟨6, 2, false⟩ := by
    rw [hAABB]
    norm_num [exitScan, exitAxisStep, fbRay, fltMax]
  have hbface : faceSample fbMesh (fbRay.at (6 : ℚ)) (computeAABB fbMesh).1
      (computeAABB fbMesh).2 2 false = ⟨1, 0, 0, 1⟩ := by
    rw [hAABB]
    norm_num [faceSample, determineFace, computeFaceUV, fbMesh, mkTri,
      redTex, TextureRegion.sample, clamp01, fbRay, Ray.at, Vec3.smul, clampZ,
      truncQ]
  have h := (intersectMesh_alpha_zero_fallback fbRay fbMesh ⟨4, 6, 2, true⟩
    (by simp [fbMesh]) hscan (by norm_num) halpha).2.2 rfl (by norm_num)
  rw [hexit] at h
  have hb := h.1 (by rw [hbface]; norm_num)
  rw [hbface] at hb
  have hpt : fbRay.at (6 : ℚ) = ⟨0, 0, 1⟩ := by
    norm_num [fbRay, Ray.at, Vec3.smul]
  have hnrm : (determineFace fbMesh 2 false).normal.smul (-1) = ⟨0, 0, -1⟩ := by
    norm_num [determineFace, fbMesh, mkTri, Vec3.smul]
  rw [hpt, hnrm] at hb
  exact hb

/-- C7 (amended): shade returns exactly the closed-form Blinn-Phong value
of the specification, clamped componentwise to the unit interval, with the
alpha channel replaced by the texture alpha before the clamp; the
visibility factor is the supplied shadow factor, or the binary hard-shadow
test when the factor is negative.  In particular, with ambient 0.1 and
kd = ks = 0 on a fully lit white surface it returns exactly
(0.1, 0.1, 0.1). -/
theorem shade_eq_clamped_blinn_phong (fm : FloatModel) (hit : HitResult)
    (viewDir : Vec3) (light : Light) (scene : Scene) (params : ShadingParams)
    (sf : ℚ) :
    (shade fm hit viewDir light scene params sf =
      Color.clamp
        ⟨(blinnPhongSpecFormula fm hit viewDir light params
            (if sf < 0 then
              (if isInShadow fm hit.point (hit.normal.normalize fm) light.position scene
               then 0 else 1)
             else sf)).r,
         (blinnPhongSpecFormula fm hit viewDir light params
            (if sf < 0 then
              (if isInShadow fm hit.point (hit.normal.normalize fm) light.position scene
               then 0 else 1)
             else sf)).g,
         (blinnPhongSpecFormula fm hit viewDir light params
            (if sf < 0 then
              (if isInShadow fm hit.point (hit.normal.normalize fm) light.position scene
               then 0 else 1)
             else sf)).b,
         hit.textureColor.a⟩)
    ∧ shade qModel hitW ⟨0, 0, 1⟩ lightZ emptyScene ⟨0, 0, 1/10, 16⟩ (-1)
        = ⟨1/10, 1/10, 1/10, 1⟩ := by
  constructor
  · simp only [shade, blinnPhongSpecFormula, Color.scale, Color.mulc, color_hadd,
      Color.clamp]
    simp only [Color.mk.injEq]
    refine ⟨?_, ?_, ?_, trivial⟩ <;> (congr 1; ring)
  · norm_num [shade, isInShadow, intersectScene, sceneFoldStep, HitResult.noHit,
      qModel, hitW, lightZ, emptyScene, Vec3.normalize, Vec3.length,
      Vec3.lengthSquared, Vec3.divs, Vec3.smul, Vec3.dot, Color.scale,
      Color.mulc, Color.clamp, clamp01, Ray.at]

/-- C7 counterexample: the claim as stated fails at the source default
shading parameters on a fully lit head-on white surface.  The closed-form
Blinn-Phong value is 0.2 + 0.75 + 0.15 = 1.1 per RGB channel, but shade
clamps its output to 1, a deviation of 0.1, far above the claimed 1e-3
tolerance. -/
theorem shade_eq_clamped_blinn_phong_counterexample :
    isInShadow qModel hitW.point ⟨0, 0, 1⟩ lightZ.position emptyScene = false
    ∧ |(shade qModel hitW ⟨0, 0, 1⟩ lightZ emptyScene {} (-1)).r
        - (blinnPhongSpecFormula qModel hitW ⟨0, 0, 1⟩ lightZ {} 1).r| > 1/1000 := by
  constructor
  · norm_num [isInShadow, intersectScene, sceneFoldStep, HitResult.noHit,
      qModel, hitW, lightZ, emptyScene, Vec3.normalize, Vec3.length,
      Vec3.lengthSquared, Vec3.divs, Vec3.smul, Vec3.dot]
  · norm_num [shade, blinnPhongSpecFormula, isInShadow, intersectScene,
      sceneFoldStep, HitResult.noHit, qModel, hitW, lightZ, emptyScene,
      Vec3.normalize, Vec3.length, Vec3.lengthSquared, Vec3.divs, Vec3.smul,
      Vec3.dot, Color.scale, Color.mulc, Color.clamp, clamp01, Ray.at,
      ShadingParams.kd, ShadingParams.ks, ShadingParams.ambient,
      ShadingParams.shininess]
    rw [abs_of_nonneg (by norm_num : (0 : ℚ) ≤ 1/10)]
    norm_num

theorem intersectMesh_ray0_meshA :
    intersectMesh ray0 meshA = ⟨true, 4, ⟨0, 0, 1⟩, ⟨0, 0, 1⟩, ⟨1, 0, 0, 1⟩, false⟩ := by
  have hAABB : computeAABB meshA = (⟨-1, -1, -1⟩, ⟨1, 1, 1⟩) := by
    norm_num [computeAABB, meshA, mkTri, fltMax]
  have hscan : slabScan ray0 (computeAABB meshA).1 (computeAABB meshA).2
      = some ⟨4, 6, 2, false⟩ := by
    rw [hAABB]
    norm_num [slabScan, slabAxisStep, ray0, fltMax, Option.bind]
  have hpt : ray0.at (4 : ℚ) = ⟨0, 0, 1⟩ := by
    norm_num [ray0, Ray.at, Vec3.smul]
  have hface : faceSample meshA ⟨0, 0, 1⟩ ⟨-1, -1, -1⟩ ⟨1, 1, 1⟩ 2 false
      = ⟨1, 0, 0, 1⟩ := by
    norm_num [faceSample, determineFace, computeFaceUV, meshA, mkTri,
      redTex, TextureRegion.sample, clamp01]
  have hnrm : (determineFace meshA 2 false).normal = ⟨0, 0, 1⟩ := by
    norm_num [determineFace, meshA, mkTri]
  rw [intersectMesh_entry_case ray0 meshA ⟨4, 6, 2, false⟩ (by simp [meshA])
    hscan (by norm_num)]
  simp only [hAABB]
  norm_num [hpt, hface, hnrm, show meshA.isOuterLayer = false from rfl]

theorem intersectMesh_ray0_meshB :
    intersectMesh ray0 meshB = ⟨true, 4, ⟨0, 0, 1⟩, ⟨0, 0, 1⟩, ⟨0, 0, 1, 1⟩, false⟩ := by
  have hAABB : computeAABB meshB = (⟨-1, -1, -1⟩, ⟨1, 1, 1⟩) := by
    norm_num [computeAABB, meshB, mkTri, fltMax]
  have hscan : slabScan ray0 (computeAABB meshB).1 (computeAABB meshB).2
      = some ⟨4, 6, 2, false⟩ := by
    rw [hAABB]
    norm_num [slabScan, slabAxisStep, ray0, fltMax, Option.bind]
  have hpt : ray0.at (4 : ℚ) = ⟨0, 0, 1⟩ := by
    norm_num [ray0, Ray.at, Vec3.smul]
  have hface : faceSample meshB ⟨0, 0, 1⟩ ⟨-1, -1, -1⟩ ⟨1, 1, 1⟩ 2 false
      = ⟨0, 0, 1, 1⟩ := by
    norm_num [faceSample, determineFace, computeFaceUV, meshB, mkTri,
      blueTex, TextureRegion.sample, clamp01]
  have hnrm : (determineFace meshB 2 false).normal = ⟨0, 0, 1⟩ := by
    norm_num [determineFace, meshB, mkTri]
  rw [intersectMesh_entry_case ray0 meshB ⟨4, 6, 2, false⟩ (by simp [meshB])
    hscan (by norm_num)]
  simp only [hAABB]
  norm_num [hpt, hface, hnrm, show meshB.isOuterLayer = false from rfl]

theorem intersectScene_ray0_AB :
    intersectScene ray0 sceneAB = ⟨true, 4, ⟨0, 0, 1⟩, ⟨0, 0, 1⟩, ⟨1, 0, 0, 1⟩, false⟩ := by
  norm_num [intersectScene, sceneAB, sceneFoldStep, intersectMesh_ray0_meshA,
    intersectMesh_ray0_meshB, HitResult.noHit, fltMax]

theorem intersectScene_ray0_BA :
    intersectScene ray0 sceneBA = ⟨true, 4, ⟨0, 0, 1⟩, ⟨0, 0, 1⟩, ⟨0, 0, 1, 1⟩, false⟩ := by
  norm_num [intersectScene, sceneBA, sceneFoldStep, intersectMesh_ray0_meshA,
    intersectMesh_ray0_meshB, HitResult.noHit, fltMax]

/-- C8: for texture alpha inside the unit interval, lighting never
modulates opacity: the alpha channel of the shade output equals the alpha
of the input texture color, and traceRay forces the alpha of the
reflection-blended (and ambient-occlusion-scaled) result back to the
original hit alpha before returning, so its output alpha equals the
texture alpha of the nearest hit. -/
theorem shading_preserves_alpha (fm : FloatModel) (scene : Scene)
    (params : ShadingParams) :
    (∀ (hit : HitResult) (viewDir : Vec3) (light : Light) (sf : ℚ),
      0 ≤ hit.textureColor.a → hit.textureColor.a ≤ 1 →
      (shade fm hit viewDir light scene params sf).a = hit.textureColor.a)
    ∧ (∀ (ray : Ray) (config : Option RTConfig) (depth maxBounces : ℕ),
        depth ≤ maxBounces →
        (intersectScene ray scene).hit = true →
        0 ≤ (intersectScene ray scene).textureColor.a →
        (intersectScene ray scene).textureColor.a ≤ 1 →
        (traceRay fm scene params config ray depth maxBounces).a
          = (intersectScene ray scene).textureColor.a) := by
  constructor
  · intro hit viewDir light sf h0 h1
    rw [shade_alpha]
    exact clamp01_eq_self h0 h1
  · intro ray config depth maxBounces hd hhit h0 h1
    unfold traceRay
    obtain ⟨f, hf⟩ : ∃ f, maxBounces + 1 - depth = f + 1 :=
      ⟨maxBounces - depth, by omega⟩
    rw [hf]
    have hnd : ¬(depth > maxBounces) := by omega
    simp only [traceRayAux, hnd, if_false, hhit]
    simp only [Bool.true_eq_false, not_true_eq_false, if_false, ite_false,
      Bool.not_true]
    simp only [Color.clamp, shade_alpha]
    rw [clamp01_eq_self h0 h1, clamp01_eq_self h0 h1]

/-- C8 witness: a primary ray hitting the red box scene returns alpha
exactly equal to the alpha of the sampled texture color of the nearest
hit. -/
theorem shading_preserves_alpha_witness :
    (traceRay qModel sceneAB {} none ray0 0 0).a
      = (intersectScene ray0 sceneAB).textureColor.a :=
  (shading_preserves_alpha qModel sceneAB {}).2 ray0 none 0 0 (le_refl 0)
    (by simp [intersectScene_ray0_AB])
    (by simp [intersectScene_ray0_AB])
    (by simp [intersectScene_ray0_AB])

theorem sceneFold_t_le (ray : Ray) (l : List Mesh) :
    ∀ c : HitResult, (l.foldl (sceneFoldStep ray) c).t ≤ c.t := by
  induction l with
  | nil => intro c; exact le_refl _
  | cons m l ih =>
    intro c
    refine le_trans (ih (sceneFoldStep ray c m)) ?_
    by_cases h : (intersectMesh ray m).hit = true ∧ (intersectMesh ray m).t < c.t
    · have hstep : sceneFoldStep ray c m = intersectMesh ray m := by
        unfold sceneFoldStep
        rw [if_pos h]
      rw [hstep]
      exact le_of_lt h.2
    · have hstep : sceneFoldStep ray c m = c := by
        unfold sceneFoldStep
        rw [if_neg h]
      rw [hstep]

theorem sceneFold_hit_of (ray : Ray) (l : List Mesh) :
    ∀ c : HitResult, c.hit = true → (l.foldl (sceneFoldStep ray) c).hit = true := by
  induction l with
  | nil => intro c hc; exact hc
  | cons m l ih =>
    intro c hc
    refine ih (sceneFoldStep ray c m) ?_
    by_cases h : (intersectMesh ray m).hit = true ∧ (intersectMesh ray m).t < c.t
    · have hstep : sceneFoldStep ray c m = intersectMesh ray m := by
        unfold sceneFoldStep
        rw [if_pos h]
      rw [hstep]
      exact h.1
    · have hstep : sceneFoldStep ray c m = c := by
        unfold sceneFoldStep
        rw [if_neg h]
      rw [hstep]
      exact hc

theorem sceneFold_result (ray : Ray) (l : List Mesh) :
    ∀ c : HitResult, l.foldl (sceneFoldStep ray) c = c
      ∨ ∃ m ∈ l, l.foldl (sceneFoldStep ray) c = intersectMesh ray m
          ∧ (intersectMesh ray m).hit = true := by
  induction l with
  | nil => intro c; exact Or.inl rfl
  | cons a l ih =>
    intro c
    have hstep : sceneFoldStep ray c a = c
        ∨ (sceneFoldStep ray c a = intersectMesh ray a
            ∧ (intersectMesh ray a).hit = true) := by
      by_cases h : (intersectMesh ray a).hit = true ∧ (intersectMesh ray a).t < c.t
      · refine Or.inr ⟨?_, h.1⟩
        unfold sceneFoldStep
        rw [if_pos h]
      · refine Or.inl ?_
        unfold sceneFoldStep
        rw [if_neg h]
    rcases ih (sceneFoldStep ray c a) with hres | ⟨m, hm, hres, hhit⟩
    · rcases hstep with he | ⟨he, hh⟩
      · exact Or.inl (by rw [List.foldl_cons, hres, he])
      · exact Or.inr ⟨a, List.mem_cons_self a l,
          by rw [List.foldl_cons, hres, he], hh⟩
    · exact Or.inr ⟨m, List.mem_cons_of_mem a hm, by rw [List.foldl_cons, hres], hhit⟩

theorem sceneFold_min (ray : Ray) (l : List Mesh) :
    ∀ c : HitResult, ∀ m ∈ l, (intersectMesh ray m).hit = true →
      (intersectMesh ray m).t < c.t →
      (l.foldl (sceneFoldStep ray) c).hit = true
        ∧ (l.foldl (sceneFoldStep ray) c).t ≤ (intersectMesh ray m).t := by
  induction l with
  | nil => intro c m hm; exact absurd hm (List.not_mem_nil m)
  | cons a l ih =>
    intro c m hm hhit hlt
    rw [List.foldl_cons]
    rcases List.mem_cons.mp hm with rfl | hm2
    · have hstep : sceneFoldStep ray c m = intersectMesh ray m := by
        unfold sceneFoldStep
        rw [if_pos ⟨hhit, hlt⟩]
      rw [hstep]
      exact ⟨sceneFold_hit_of ray l _ hhit, sceneFold_t_le ray l _⟩
    · by_cases hlt2 : (intersectMesh ray m).t < (sceneFoldStep ray c a).t
      · exact ih (sceneFoldStep ray c a) m hm2 hhit hlt2
      · push_neg at hlt2
        by_cases h : (intersectMesh ray a).hit = true ∧ (intersectMesh ray a).t < c.t
        · have hstep : sceneFoldStep ray c a = intersectMesh ray a := by
            unfold sceneFoldStep
            rw [if_pos h]
          rw [hstep] at hlt2 ⊢
          exact ⟨sceneFold_hit_of ray l _ h.1,
            le_trans (sceneFold_t_le ray l _) hlt2⟩
        · have hstep : sceneFoldStep ray c a = c := by
            unfold sceneFoldStep
            rw [if_neg h]
          rw [hstep] at hlt2
          exact absurd hlt (not_lt.mpr hlt2)

/-- C6: isInShadow offsets the surface point along the normal by 1e-3,
and reports shadow exactly when some mesh is hit by the ray toward the
light strictly before the distance to the light, provided that distance
is in the representable range; a blocker at or beyond the light distance
causes no shadow, and a light at near-zero distance (below 1e-6) is never
in shadow. -/
theorem isInShadow_iff_blocked (fm : FloatModel) (point normal lightPos : Vec3)
    (scene : Scene) :
    (Vec3.length fm (lightPos - (point + normal.smul (1/1000))) < 1/1000000 →
      isInShadow fm point normal lightPos scene = false)
    ∧ (1/1000000 ≤ Vec3.length fm (lightPos - (point + normal.smul (1/1000))) →
       Vec3.length fm (lightPos - (point + normal.smul (1/1000))) ≤ fltMax →
       (isInShadow fm point normal lightPos scene = true ↔
         ∃ m ∈ scene.meshes,
           (intersectMesh
             ⟨point + normal.smul (1/1000),
              (lightPos - (point + normal.smul (1/1000))).divs
                (Vec3.length fm (lightPos - (point + normal.smul (1/1000))))⟩ m).hit = true
           ∧ (intersectMesh
             ⟨point + normal.smul (1/1000),
              (lightPos - (point + normal.smul (1/1000))).divs
                (Vec3.length fm (lightPos - (point + normal.smul (1/1000))))⟩ m).t
               < Vec3.length fm (lightPos - (point + normal.smul (1/1000))))) := by
  constructor
  · intro hlt
    simp only [isInShadow]
    rw [if_pos hlt]
  · intro hge hle
    have hnlt : ¬(Vec3.length fm (lightPos - (point + normal.smul (1/1000)))
        < 1/1000000) := not_lt.mpr hge
    simp only [isInShadow, hnlt, if_false, ite_false, decide_eq_true_eq,
      Bool.and_eq_true]
    constructor
    · intro h
      have h2 : (intersectScene
          ⟨point + normal.smul (1/1000),
           (lightPos - (point + normal.smul (1/1000))).divs
             (Vec3.length fm (lightPos - (point + normal.smul (1/1000))))⟩ scene).hit = true
          ∧ (intersectScene
          ⟨point + normal.smul (1/1000),
           (lightPos - (point + normal.smul (1/1000))).divs
             (Vec3.length fm (lightPos - (point + normal.smul (1/1000))))⟩ scene).t
            < Vec3.length fm (lightPos - (point + normal.smul (1/1000))) := by
        simpa using h
      rcases sceneFold_result
          ⟨point + normal.smul (1/1000),
           (lightPos - (point + normal.smul (1/1000))).divs
             (Vec3.length fm (lightPos - (point + normal.smul (1/1000))))⟩
          scene.meshes { HitResult.noHit with t := fltMax } with hres | ⟨m, hm, hres, hhit⟩
      · rw [intersectScene] at h2
        rw [hres] at h2
        exact absurd h2.1 (by simp [HitResult.noHit])
      · refine ⟨m, hm, hhit, ?_⟩
        rw [intersectScene] at h2
        rw [hres] at h2
        exact h2.2
    · rintro ⟨m, hm, hhit, hlt⟩
      have hinit : (intersectMesh
          ⟨point + normal.smul (1/1000),
           (lightPos - (point + normal.smul (1/1000))).divs
             (Vec3.length fm (lightPos - (point + normal.smul (1/1000))))⟩ m).t
          < ({ HitResult.noHit with t := fltMax } : HitResult).t :=
        lt_of_lt_of_le hlt hle
      have hmin := sceneFold_min
          ⟨point + normal.smul (1/1000),
           (lightPos - (point + normal.smul (1/1000))).divs
             (Vec3.length fm (lightPos - (point + normal.smul (1/1000))))⟩
          scene.meshes { HitResult.noHit with t := fltMax } m hm hhit hinit
      rw [intersectScene]
      simp only [Bool.and_eq_true, decide_eq_true_eq]
      exact ⟨hmin.1, lt_of_le_of_lt hmin.2 hlt⟩

theorem intersectMesh_shadow_blocker :
    intersectMesh ⟨⟨0, 0, 0⟩, ⟨0, 0, 1⟩⟩ blockerMesh
      = ⟨true, 1, ⟨0, 0, 1⟩, ⟨0, 0, -1⟩, ⟨1, 0, 0, 1⟩, false⟩ := by
  have hAABB : computeAABB blockerMesh = (⟨-1, -1, 1⟩, ⟨1, 1, 3⟩) := by
    norm_num [computeAABB, blockerMesh, mkTri, fltMax]
  have hscan : slabScan ⟨⟨0, 0, 0⟩, ⟨0, 0, 1⟩⟩ (computeAABB blockerMesh).1
      (computeAABB blockerMesh).2 = some ⟨1, 3, 2, true⟩ := by
    rw [hAABB]
    norm_num [slabScan, slabAxisStep, fltMax, Option.bind]
  have hpt : Ray.at ⟨⟨0, 0, 0⟩, ⟨0, 0, 1⟩⟩ (1 : ℚ) = ⟨0, 0, 1⟩ := by
    norm_num [Ray.at, Vec3.smul]
  have hface : faceSample blockerMesh ⟨0, 0, 1⟩ ⟨-1, -1, 1⟩ ⟨1, 1, 3⟩ 2 true
      = ⟨1, 0, 0, 1⟩ := by
    norm_num [faceSample, determineFace, computeFaceUV, blockerMesh, mkTri,
      redTex, TextureRegion.sample, clamp01]
  have hnrm : (determineFace blockerMesh 2 true).normal = ⟨0, 0, -1⟩ := by
    norm_num [determineFace, blockerMesh, mkTri]
  rw [intersectMesh_entry_case ⟨⟨0, 0, 0⟩, ⟨0, 0, 1⟩⟩ blockerMesh ⟨1, 3, 2, true⟩
    (by simp [blockerMesh]) hscan (by norm_num)]
  simp only [hAABB]
  norm_num [hpt, hface, hnrm, show blockerMesh.isOuterLayer = false from rfl]

/-- C6 witness: with an opaque box straddling the segment from the shaded
point to a light at distance 5, isInShadow reports true; the theorem is
applied at this concrete input with the existential witness being the
blocker mesh hit at parameter 1 < 5. -/
theorem isInShadow_iff_blocked_witness :
    isInShadow qModel ⟨0, -1/1000, 0⟩ ⟨0, 1, 0⟩ ⟨0, 0, 5⟩ blockerScene = true := by
  have hd : Vec3.length qModel
      ((⟨0, 0, 5⟩ : Vec3) - ((⟨0, -1/1000, 0⟩ : Vec3) + (⟨0, 1, 0⟩ : Vec3).smul (1/1000)))
      = 5 := by
    norm_num [Vec3.length, Vec3.lengthSquared, Vec3.smul, qModel]
  have hray : (⟨(⟨0, -1/1000, 0⟩ : Vec3) + (⟨0, 1, 0⟩ : Vec3).smul (1/1000),
      ((⟨0, 0, 5⟩ : Vec3) - ((⟨0, -1/1000, 0⟩ : Vec3) + (⟨0, 1, 0⟩ : Vec3).smul (1/1000))).divs
        (Vec3.length qModel
          ((⟨0, 0, 5⟩ : Vec3) - ((⟨0, -1/1000, 0⟩ : Vec3) + (⟨0, 1, 0⟩ : Vec3).smul (1/1000))))⟩
      : Ray) = ⟨⟨0, 0, 0⟩, ⟨0, 0, 1⟩⟩ := by
    rw [hd]
    norm_num [Vec3.smul, Vec3.divs]
  refine ((isInShadow_iff_blocked qModel ⟨0, -1/1000, 0⟩ ⟨0, 1, 0⟩ ⟨0, 0, 5⟩
      blockerScene).2 (by rw [hd]; norm_num) (by rw [hd]; norm_num [fltMax])).mpr ?_
  refine ⟨blockerMesh, by simp [blockerScene], ?_, ?_⟩
  · rw [hray, intersectMesh_shadow_blocker]
  · rw [hray, intersectMesh_shadow_blocker, hd]
    norm_num

theorem sceneFoldStep_eq (ray : Ray) (c : HitResult) (m : Mesh) :
    sceneFoldStep ray c m =
      if (intersectMesh ray m).hit = true ∧ (intersectMesh ray m).t < c.t
      then intersectMesh ray m else c := rfl

theorem sceneFoldStep_comm (ray : Ray) (c : HitResult) (m1 m2 : Mesh)
    (hne : (intersectMesh ray m1).hit = true → (intersectMesh ray m2).hit = true →
      (intersectMesh ray m1).t ≠ (intersectMesh ray m2).t) :
    sceneFoldStep ray (sceneFoldStep ray c m1) m2
      = sceneFoldStep ray (sceneFoldStep ray c m2) m1 := by
  by_cases h1 : (intersectMesh ray m1).hit = true ∧ (intersectMesh ray m1).t < c.t
  · have e1 : sceneFoldStep ray c m1 = intersectMesh ray m1 := by
      rw [sceneFoldStep_eq, if_pos h1]
    by_cases h2 : (intersectMesh ray m2).hit = true ∧ (intersectMesh ray m2).t < c.t
    · have e2 : sceneFoldStep ray c m2 = intersectMesh ray m2 := by
        rw [sceneFoldStep_eq, if_pos h2]
      rw [e1, e2, sceneFoldStep_eq, sceneFoldStep_eq]
      rcases lt_or_gt_of_ne (hne h1.1 h2.1) with hlt | hgt
      · rw [if_neg (by
            rintro ⟨-, habs⟩
            exact absurd habs (not_lt.mpr (le_of_lt hlt))),
          if_pos ⟨h1.1, hlt⟩]
      · rw [if_pos ⟨h2.1, hgt⟩, if_neg (by
            rintro ⟨-, habs⟩
            exact absurd habs (not_lt.mpr (le_of_lt hgt)))]
    · have e2 : sceneFoldStep ray c m2 = c := by
        rw [sceneFoldStep_eq, if_neg h2]
      rw [e1, e2, sceneFoldStep_eq, sceneFoldStep_eq]
      rw [if_neg (by
          rintro ⟨hh2, habs⟩
          exact h2 ⟨hh2, lt_trans habs h1.2⟩),
        if_pos h1]
  · have e1 : sceneFoldStep ray c m1 = c := by
      rw [sceneFoldStep_eq, if_neg h1]
    by_cases h2 : (intersectMesh ray m2).hit = true ∧ (intersectMesh ray m2).t < c.t
    · have e2 : sceneFoldStep ray c m2 = intersectMesh ray m2 := by
        rw [sceneFoldStep_eq, if_pos h2]
      rw [e1, e2, sceneFoldStep_eq]
      rw [if_neg (by
          rintro ⟨hh1, habs⟩
          exact h1 ⟨hh1, lt_trans habs h2.2⟩)]
    · have e2 : sceneFoldStep ray c m2 = c := by
        rw [sceneFoldStep_eq, if_neg h2]
      rw [e1, e2, e1]

theorem sceneFold_perm (ray : Ray) (l1 l2 : List Mesh) (hperm : l1.Perm l2)
    (hp : List.Pairwise (tDistinct ray) l1) :
    ∀ c, l1.foldl (sceneFoldStep ray) c = l2.foldl (sceneFoldStep ray) c := by
  have hsymm : Symmetric (tDistinct ray) := by
    intro a b hab hb ha
    exact (hab ha hb).symm
  induction hperm with
  | nil => intro c; rfl
  | cons x p ih =>
    intro c
    rw [List.foldl_cons, List.foldl_cons]
    exact ih (List.Pairwise.of_cons hp) _
  | swap x y l =>
    intro c
    rw [List.foldl_cons, List.foldl_cons, List.foldl_cons, List.foldl_cons]
    rw [sceneFoldStep_comm ray c y x (List.rel_of_pairwise_cons hp
      (List.mem_cons_self x l))]
  | trans p1 p2 ih1 ih2 =>
    intro c
    rw [ih1 hp c, ih2 ((List.Perm.pairwise_iff
      (fun hab hb ha => (hab ha hb).symm) p1).mp hp) c]

/-- C5 (amended): intersectScene returns a non-hit exactly when no mesh in
the scene reports a hit, and on a hit it returns the full hit record of a
mesh whose parameter is minimal among all hitting meshes (each hitting
mesh assumed inside the FLT_MAX float range that seeds the fold); the
result is unchanged under any permutation of the mesh list provided the
hitting meshes have pairwise distinct hit parameters — with ties, the
first mesh in list order wins, so only the hit parameter itself, not the
full record, is order-independent. -/
theorem intersectScene_nearest_and_perm (ray : Ray) (scene : Scene)
    (hbound : ∀ m ∈ scene.meshes, (intersectMesh ray m).hit = true →
      (intersectMesh ray m).t < fltMax) :
    ((intersectScene ray scene).hit = true ↔
      ∃ m ∈ scene.meshes, (intersectMesh ray m).hit = true)
    ∧ ((intersectScene ray scene).hit = true →
        ∃ m ∈ scene.meshes, intersectScene ray scene = intersectMesh ray m
          ∧ (intersectMesh ray m).hit = true
          ∧ ∀ m2 ∈ scene.meshes, (intersectMesh ray m2).hit = true →
              (intersectScene ray scene).t ≤ (intersectMesh ray m2).t)
    ∧ (∀ l2 : List Mesh, scene.meshes.Perm l2 →
        List.Pairwise (tDistinct ray) scene.meshes →
        intersectScene ray { scene with meshes := l2 } = intersectScene ray scene) := by
  have hmin : ∀ m2 ∈ scene.meshes, (intersectMesh ray m2).hit = true →
      (intersectScene ray scene).hit = true
        ∧ (intersectScene ray scene).t ≤ (intersectMesh ray m2).t := by
    intro m2 hm2 hh2
    exact sceneFold_min ray scene.meshes { HitResult.noHit with t := fltMax } m2 hm2
      hh2 (hbound m2 hm2 hh2)
  refine ⟨⟨?_, ?_⟩, ?_, ?_⟩
  · intro hhit
    rcases sceneFold_result ray scene.meshes { HitResult.noHit with t := fltMax }
      with hres | ⟨m, hm, hres, hh⟩
    · rw [intersectScene, hres] at hhit
      exact absurd hhit (by simp [HitResult.noHit])
    · exact ⟨m, hm, hh⟩
  · rintro ⟨m, hm, hh⟩
    exact (hmin m hm hh).1
  · intro hhit
    rcases sceneFold_result ray scene.meshes { HitResult.noHit with t := fltMax }
      with hres | ⟨m, hm, hres, hh⟩
    · rw [intersectScene, hres] at hhit
      exact absurd hhit (by simp [HitResult.noHit])
    · exact ⟨m, hm, by rw [intersectScene, hres], hh,
        fun m2 hm2 hh2 => (hmin m2 hm2 hh2).2⟩
  · intro l2 hperm hp
    rw [intersectScene, intersectScene]
    exact (sceneFold_perm ray scene.meshes l2 hperm hp _).symm

/-- C5 counterexample: list order does carry meaning when two meshes are
hit at exactly the same parameter.  The red and blue boxes share the same
geometry, so ray0 hits both at t = 4; swapping the two meshes in the scene
changes the returned texture color from red to blue, refuting the claim
that the result is unchanged under any permutation of the mesh list. -/
theorem intersectScene_nearest_and_perm_counterexample :
    sceneBA.meshes.Perm sceneAB.meshes
    ∧ intersectScene ray0 sceneAB ≠ intersectScene ray0 sceneBA := by
  constructor
  · exact List.Perm.swap meshA meshB []
  · rw [intersectScene_ray0_AB, intersectScene_ray0_BA]
    simp

/-- C5 witness: the nearest-hit characterization applied to the two-box
scene; the red box is a hitting mesh, so the scene query reports a hit. -/
theorem intersectScene_nearest_and_perm_witness :
    (intersectScene ray0 sceneAB).hit = true :=
  (intersectScene_nearest_and_perm ray0 sceneAB (by
    intro m hm h
    rcases List.mem_cons.mp hm with rfl | hm2
    · rw [intersectMesh_ray0_meshA]
      norm_num [fltMax]
    · rcases List.mem_cons.mp hm2 with rfl | hm3
      · rw [intersectMesh_ray0_meshB]
        norm_num [fltMax]
      · exact absurd hm3 (List.not_mem_nil m))).1.mpr
    ⟨meshA, List.mem_cons_self meshA [meshB], by rw [intersectMesh_ray0_meshA]⟩

theorem generateTiles_eq (w h ts : ℕ) (hw : 1 ≤ w) (hh : 1 ≤ h) (hts : 1 ≤ ts) :
    generateTiles w h ts =
      (List.range ((h + ts - 1) / ts)).flatMap (fun ty =>
        (List.range ((w + ts - 1) / ts)).map (fun tx => tileAt w h ts tx ty)) := by
  unfold generateTiles
  rw [if_neg (by omega)]
  rfl

theorem flatMap_const_len_sum (l : List ℕ) (f : ℕ → List ℕ) :
    (l.flatMap f).sum = (l.map (fun a => (f a).sum)).sum := by
  induction l with
  | nil => rfl
  | cons a l ih =>
    rw [List.flatMap_cons, List.sum_append, ih, List.map_cons, List.sum_cons]

theorem flatMap_const_len_length {α : Type} (l : List ℕ) (f : ℕ → List α) (c : ℕ)
    (hc : ∀ a, (f a).length = c) : (l.flatMap f).length = l.length * c := by
  induction l with
  | nil => simp
  | cons a l ih =>
    rw [List.flatMap_cons, List.length_append, ih, List.length_cons, hc]
    ring

theorem flatMap_const_len_getElem {α : Type} (l : List ℕ) (f : ℕ → List α) (c : ℕ)
    (hc : ∀ a, (f a).length = c) :
    ∀ i, i < l.length * c →
      (l.flatMap f)[i]? = (l[i / c]?).bind (fun a => (f a)[i % c]?) := by
  induction l with
  | nil =>
    intro i hi
    simp at hi
  | cons a l ih =>
    intro i hi
    rw [List.flatMap_cons]
    by_cases hic : i < c
    · have hc0 : 0 < c := by omega
      rw [List.getElem?_append_left (by rw [hc]; exact hic)]
      rw [Nat.div_eq_of_lt hic, Nat.mod_eq_of_lt hic, List.getElem?_cons_zero]
      rfl
    · push_neg at hic
      have hc0 : 0 < c := by
        rcases Nat.eq_zero_or_pos c with rfl | h
        · omega
        · exact h
      rw [List.getElem?_append_right (by rw [hc]; exact hic)]
      rw [hc]
      have hdiv : i / c = (i - c) / c + 1 := Nat.div_eq_sub_div hc0 hic
      have hmod : i % c = (i - c) % c := Nat.mod_eq_sub_mod hic
      rw [hdiv, hmod]
      rw [List.getElem?_cons_succ]
      exact ih (i - c) (by
        rw [List.length_cons] at hi
        have : (l.length + 1) * c = l.length * c + c := by ring
        omega)

theorem clipped_row_sum (ts : ℕ) (hts : 1 ≤ ts) :
    ∀ n w, n = (w + ts - 1) / ts →
      ((List.range n).map (fun i => min ts (w - i * ts))).sum = w := by
  intro n
  induction n with
  | zero =>
    intro w hn
    have hw0 : w = 0 := by
      have hlt : w + ts - 1 < ts := by
        rcases Nat.eq_zero_or_pos ((w + ts - 1) / ts) with h | h
        · exact (Nat.div_eq_zero_iff (by omega)).mp h
        · omega
      omega
    simp [hw0]
  | succ n ih =>
    intro w hn
    rw [List.range_succ_eq_map, List.map_cons, List.map_map, List.sum_cons]
    by_cases hw : w ≤ ts
    · have hn0 : n = 0 := by
        have hlt : (w + ts - 1) / ts < 2 := by
          rw [Nat.div_lt_iff_lt_mul (by omega)]
          omega
        omega
      have hw1 : 1 ≤ w := by
        by_contra hco
        have : w = 0 := by omega
        rw [this] at hn
        have : (0 + ts - 1) / ts = 0 := Nat.div_eq_of_lt (by omega)
        omega
      subst hn0
      simp [min_eq_right (by omega : w - 0 * ts ≤ ts)]
      omega
    · push_neg at hw
      have hfun : ((fun i => min ts (w - i * ts)) ∘ Nat.succ)
          = fun i => min ts ((w - ts) - i * ts) := by
        funext i
        simp only [Function.comp_apply, Nat.succ_eq_add_one, add_mul, one_mul]
        congr 1
        omega
      rw [hfun]
      have hn' : n = ((w - ts) + ts - 1) / ts := by
        have hrw : w + ts - 1 = ((w - ts) + ts - 1) + ts := by omega
        rw [hrw, Nat.add_div_right _ (by omega)] at hn
        omega
      rw [ih (w - ts) hn']
      have hmin : min ts (w - 0 * ts) = ts := min_eq_left (by omega)
      rw [hmin]
      omega

theorem tiles_length (w h ts : ℕ) (hw : 1 ≤ w) (hh : 1 ≤ h) (hts : 1 ≤ ts) :
    (generateTiles w h ts).length = ((h + ts - 1) / ts) * ((w + ts - 1) / ts) := by
  rw [generateTiles_eq w h ts hw hh hts]
  rw [flatMap_const_len_length _ _ ((w + ts - 1) / ts) (fun a => by
    rw [List.length_map, List.length_range])]
  rw [List.length_range]

theorem tiles_getElem (w h ts : ℕ) (hw : 1 ≤ w) (hh : 1 ≤ h) (hts : 1 ≤ ts)
    (i : ℕ) (hi : i < ((h + ts - 1) / ts) * ((w + ts - 1) / ts)) :
    (generateTiles w h ts)[i]? =
      some (tileAt w h ts (i % ((w + ts - 1) / ts)) (i / ((w + ts - 1) / ts))) := by
  have hcols : 1 ≤ (w + ts - 1) / ts := by
    rw [Nat.one_le_div_iff (by omega)]
    omega
  rw [generateTiles_eq w h ts hw hh hts]
  rw [flatMap_const_len_getElem _ _ ((w + ts - 1) / ts) (fun a => by
    rw [List.length_map, List.length_range]) i (by
    rw [List.length_range]; exact hi)]
  rw [List.getElem?_range (Nat.div_lt_of_lt_mul (lt_of_lt_of_eq hi (mul_comm _ _)))]
  simp only [Option.some_bind, List.getElem?_map]
  rw [List.getElem?_range (Nat.mod_lt i (by omega))]
  rfl

theorem cols_eq (w ts : ℕ) (hw : 1 ≤ w) (hts : 1 ≤ ts) :
    (w + ts - 1) / ts = (w - 1) / ts + 1 := by
  have hrw : w + ts - 1 = (w - 1) + ts := by omega
  rw [hrw, Nat.add_div_right _ (by omega)]

theorem inTile_emptyTile (px py : ℕ) : ¬inTile emptyTile px py := by
  simp only [inTile, emptyTile]
  omega

theorem tileAt_disjoint (w h ts : ℕ) (hts : 1 ≤ ts) (tx1 ty1 tx2 ty2 px py : ℕ)
    (hne : tx1 ≠ tx2 ∨ ty1 ≠ ty2) :
    ¬(inTile (tileAt w h ts tx1 ty1) px py ∧ inTile (tileAt w h ts tx2 ty2) px py) := by
  rintro ⟨h1, h2⟩
  simp only [inTile, tileAt] at h1 h2
  have e1x : px < tx1 * ts + ts := by
    have := min_le_left ts (w - tx1 * ts)
    omega
  have e2x : px < tx2 * ts + ts := by
    have := min_le_left ts (w - tx2 * ts)
    omega
  have e1y : py < ty1 * ts + ts := by
    have := min_le_left ts (h - ty1 * ts)
    omega
  have e2y : py < ty2 * ts + ts := by
    have := min_le_left ts (h - ty2 * ts)
    omega
  rcases hne with hne | hne
  · rcases Nat.lt_or_ge tx1 tx2 with hlt | hge
    · have hmul : (tx1 + 1) * ts ≤ tx2 * ts := Nat.mul_le_mul_right ts hlt
      rw [add_mul, one_mul] at hmul
      omega
    · have hlt2 : tx2 < tx1 := by omega
      have hmul : (tx2 + 1) * ts ≤ tx1 * ts := Nat.mul_le_mul_right ts hlt2
      rw [add_mul, one_mul] at hmul
      omega
  · rcases Nat.lt_or_ge ty1 ty2 with hlt | hge
    · have hmul : (ty1 + 1) * ts ≤ ty2 * ts := Nat.mul_le_mul_right ts hlt
      rw [add_mul, one_mul] at hmul
      omega
    · have hlt2 : ty2 < ty1 := by omega
      have hmul : (ty2 + 1) * ts ≤ ty1 * ts := Nat.mul_le_mul_right ts hlt2
      rw [add_mul, one_mul] at hmul
      omega

theorem tiles_getD (w h ts : ℕ) (hw : 1 ≤ w) (hh : 1 ≤ h) (hts : 1 ≤ ts)
    (i : ℕ) (hi : i < ((h + ts - 1) / ts) * ((w + ts - 1) / ts)) :
    (generateTiles w h ts).getD i emptyTile
      = tileAt w h ts (i % ((w + ts - 1) / ts)) (i / ((w + ts - 1) / ts)) := by
  rw [List.getD_eq_getElem?_getD, tiles_getElem w h ts hw hh hts i hi]
  rfl

theorem tiles_getD_oob (w h ts i : ℕ) (hi : (generateTiles w h ts).length ≤ i) :
    (generateTiles w h ts).getD i emptyTile = emptyTile := by
  rw [List.getD_eq_getElem?_getD, List.getElem?_eq_none hi]
  rfl

theorem tiles_disjoint (w h ts i j px py : ℕ) (hij : i ≠ j) :
    ¬(inTile ((generateTiles w h ts).getD i emptyTile) px py
      ∧ inTile ((generateTiles w h ts).getD j emptyTile) px py) := by
  by_cases hguard : w = 0 ∨ h = 0 ∨ ts = 0
  · have hnil : generateTiles w h ts = [] := by
      unfold generateTiles
      rw [if_pos hguard]
    rw [hnil]
    rintro ⟨hcontra, -⟩
    exact inTile_emptyTile px py hcontra
  · push_neg at hguard
    have hw : 1 ≤ w := by omega
    have hh : 1 ≤ h := by omega
    have hts : 1 ≤ ts := by omega
    have hlen := tiles_length w h ts hw hh hts
    by_cases hi : i < ((h + ts - 1) / ts) * ((w + ts - 1) / ts)
    · by_cases hj : j < ((h + ts - 1) / ts) * ((w + ts - 1) / ts)
      · rw [tiles_getD w h ts hw hh hts i hi, tiles_getD w h ts hw hh hts j hj]
        refine tileAt_disjoint w h ts hts _ _ _ _ px py ?_
        by_contra hcon
        push_neg at hcon
        have hdm1 := Nat.div_add_mod i ((w + ts - 1) / ts)
        have hdm2 := Nat.div_add_mod j ((w + ts - 1) / ts)
        rw [hcon.2, hcon.1] at hdm1
        omega
      · rw [tiles_getD_oob w h ts j (by omega)]
        rintro ⟨-, hcontra⟩
        exact inTile_emptyTile px py hcontra
    · rw [tiles_getD_oob w h ts i (by omega)]
      rintro ⟨hcontra, -⟩
      exact inTile_emptyTile px py hcontra

theorem tiles_cover (w h ts px py : ℕ) (hw : 1 ≤ w) (hh : 1 ≤ h) (hts : 1 ≤ ts)
    (hx : px < w) (hy : py < h) :
    ∃ tile ∈ generateTiles w h ts, inTile tile px py := by
  refine ⟨tileAt w h ts (px / ts) (py / ts), ?_, ?_⟩
  · rw [generateTiles_eq w h ts hw hh hts]
    rw [List.mem_flatMap]
    refine ⟨py / ts, List.mem_range.mpr ?_, List.mem_map.mpr ⟨px / ts,
      List.mem_range.mpr ?_, rfl⟩⟩
    · rw [cols_eq h ts hh hts]
      have := Nat.div_le_div_right (c := ts) (show py ≤ h - 1 by omega)
      omega
    · rw [cols_eq w ts hw hts]
      have := Nat.div_le_div_right (c := ts) (show px ≤ w - 1 by omega)
      omega
  · simp only [inTile, tileAt]
    have hdmx := Nat.div_add_mod px ts
    have hdmy := Nat.div_add_mod py ts
    have hmx : px % ts < ts := Nat.mod_lt px (by omega)
    have hmy : py % ts < ts := Nat.mod_lt py (by omega)
    have hcx : ts * (px / ts) = px / ts * ts := mul_comm _ _
    have hcy : ts * (py / ts) = py / ts * ts := mul_comm _ _
    omega

theorem tiles_bounds (w h ts : ℕ) (hw : 1 ≤ w) (hh : 1 ≤ h) (hts : 1 ≤ ts) :
    ∀ tile ∈ generateTiles w h ts, tile.x + tile.width ≤ w
      ∧ tile.y + tile.height ≤ h := by
  intro tile hmem
  rw [generateTiles_eq w h ts hw hh hts, List.mem_flatMap] at hmem
  obtain ⟨ty, hty, hmem2⟩ := hmem
  rw [List.mem_map] at hmem2
  obtain ⟨tx, htx, rfl⟩ := hmem2
  rw [List.mem_range, cols_eq w ts hw hts] at htx
  rw [List.mem_range, cols_eq h ts hh hts] at hty
  simp only [tileAt]
  have hx : tx * ts ≤ w - 1 := by
    calc tx * ts ≤ (w - 1) / ts * ts := Nat.mul_le_mul_right ts (by omega)
    _ ≤ w - 1 := Nat.div_mul_le_self _ _
  have hy : ty * ts ≤ h - 1 := by
    calc ty * ts ≤ (h - 1) / ts * ts := Nat.mul_le_mul_right ts (by omega)
    _ ≤ h - 1 := Nat.div_mul_le_self _ _
  constructor
  · have := min_le_right ts (w - tx * ts)
    omega
  · have := min_le_right ts (h - ty * ts)
    omega

theorem tiles_area (w h ts : ℕ) (hw : 1 ≤ w) (hh : 1 ≤ h) (hts : 1 ≤ ts) :
    ((generateTiles w h ts).map (fun tile => tile.width * tile.height)).sum
      = w * h := by
  rw [generateTiles_eq w h ts hw hh hts]
  rw [List.map_flatMap]
  rw [flatMap_const_len_sum]
  have hinner : ∀ ty, (((List.range ((w + ts - 1) / ts)).map
      (fun tx => tileAt w h ts tx ty)).map (fun tile => tile.width * tile.height)).sum
      = w * min ts (h - ty * ts) := by
    intro ty
    rw [List.map_map]
    have hfun : ((fun tile => tile.width * tile.height) ∘ fun tx => tileAt w h ts tx ty)
        = fun tx => min ts (w - tx * ts) * min ts (h - ty * ts) := by
      funext tx
      rfl
    rw [hfun, List.sum_map_mul_right,
      clipped_row_sum ts hts ((w + ts - 1) / ts) w rfl]
  have hmap : (List.range ((h + ts - 1) / ts)).map (fun ty =>
      (((List.range ((w + ts - 1) / ts)).map (fun tx => tileAt w h ts tx ty)).map
        (fun tile => tile.width * tile.height)).sum)
      = (List.range ((h + ts - 1) / ts)).map (fun ty => w * min ts (h - ty * ts)) := by
    exact List.map_congr_left (fun ty _ => hinner ty)
  rw [hmap, List.sum_map_mul_left, clipped_row_sum ts hts ((h + ts - 1) / ts) h rfl]

/-- C4: for image width, height and tile size all at least 1, the
generated tiles form a row-major grid of ceil(h/ts) rows by ceil(w/ts)
columns aligned to the tile size with boundary tiles clipped; every tile
lies within the image bounds, the tiles are pairwise non-overlapping, and
their total pixel area is exactly width times height; every image pixel
lies in some tile, so the union is the full image. -/
theorem generateTiles_partition (w h ts : ℕ) (hw : 1 ≤ w) (hh : 1 ≤ h)
    (hts : 1 ≤ ts) :
    (generateTiles w h ts).length = ((h + ts - 1) / ts) * ((w + ts - 1) / ts)
    ∧ (∀ i, i < ((h + ts - 1) / ts) * ((w + ts - 1) / ts) →
        (generateTiles w h ts).getD i emptyTile
          = ⟨(i % ((w + ts - 1) / ts)) * ts, (i / ((w + ts - 1) / ts)) * ts,
             min ts (w - (i % ((w + ts - 1) / ts)) * ts),
             min ts (h - (i / ((w + ts - 1) / ts)) * ts)⟩)
    ∧ (∀ tile ∈ generateTiles w h ts,
        tile.x + tile.width ≤ w ∧ tile.y + tile.height ≤ h)
    ∧ ((generateTiles w h ts).map (fun tile => tile.width * tile.height)).sum = w * h
    ∧ List.Pairwise (fun t1 t2 => ∀ px py, ¬(inTile t1 px py ∧ inTile t2 px py))
        (generateTiles w h ts)
    ∧ (∀ px py, px < w → py < h → ∃ tile ∈ generateTiles w h ts, inTile tile px py) := by
  refine ⟨tiles_length w h ts hw hh hts, ?_, tiles_bounds w h ts hw hh hts,
    tiles_area w h ts hw hh hts, ?_, ?_⟩
  · intro i hi
    exact tiles_getD w h ts hw hh hts i hi
  · rw [List.pairwise_iff_getElem]
    intro i j hi hj hij
    have hlen := tiles_length w h ts hw hh hts
    have hi2 : i < ((h + ts - 1) / ts) * ((w + ts - 1) / ts) := by omega
    have hj2 : j < ((h + ts - 1) / ts) * ((w + ts - 1) / ts) := by omega
    have hgi : (generateTiles w h ts)[i]
        = tileAt w h ts (i % ((w + ts - 1) / ts)) (i / ((w + ts - 1) / ts)) := by
      have h1 := tiles_getElem w h ts hw hh hts i hi2
      rw [List.getElem?_eq_getElem hi] at h1
      exact Option.some.inj h1
    have hgj : (generateTiles w h ts)[j]
        = tileAt w h ts (j % ((w + ts - 1) / ts)) (j / ((w + ts - 1) / ts)) := by
      have h1 := tiles_getElem w h ts hw hh hts j hj2
      rw [List.getElem?_eq_getElem hj] at h1
      exact Option.some.inj h1
    rw [hgi, hgj]
    intro px py
    refine tileAt_disjoint w h ts hts _ _ _ _ px py ?_
    by_contra hcon
    push_neg at hcon
    have hdm1 := Nat.div_add_mod i ((w + ts - 1) / ts)
    have hdm2 := Nat.div_add_mod j ((w + ts - 1) / ts)
    rw [hcon.2, hcon.1] at hdm1
    omega
  · intro px py hx hy
    exact tiles_cover w h ts px py hw hh hts hx hy

/-- C4 witness: a 5 by 3 image with tile size 2 is covered by tiles of
total area exactly 15. -/
theorem generateTiles_partition_witness :
    ((generateTiles 5 3 2).map (fun tile => tile.width * tile.height)).sum = 5 * 3 :=
  (generateTiles_partition 5 3 2 (by decide) (by decide) (by decide)).2.2.2.1

theorem writeTile_pix (fm : FloatModel) (scene : Scene) (config : RTConfig)
    (tile : Tile) (img : RImage) (x y : ℕ) :
    (writeTile fm scene config tile img).pix x y
      = if inTile tile x y then renderPixel fm scene config tile x y
        else img.pix x y := rfl

theorem writeTile_comm (fm : FloatModel) (scene : Scene) (config : RTConfig)
    (t1 t2 : Tile) (img : RImage)
    (hd : t1 = t2 ∨ ∀ px py, ¬(inTile t1 px py ∧ inTile t2 px py)) :
    writeTile fm scene config t1 (writeTile fm scene config t2 img)
      = writeTile fm scene config t2 (writeTile fm scene config t1 img) := by
  rcases hd with rfl | hd
  · rfl
  · unfold writeTile
    simp only []
    congr 1
    funext x y
    by_cases h1 : inTile t1 x y
    · by_cases h2 : inTile t2 x y
      · exact absurd ⟨h1, h2⟩ (hd x y)
      · simp [h1, h2]
    · by_cases h2 : inTile t2 x y
      · simp [h1, h2]
      · simp [h1, h2]

theorem renderStep_comm (fm : FloatModel) (scene : Scene) (config : RTConfig)
    (img : RImage) (i j : ℕ) :
    renderStep fm scene config (renderStep fm scene config img i) j
      = renderStep fm scene config (renderStep fm scene config img j) i := by
  by_cases hij : i = j
  · rw [hij]
  · unfold renderStep
    exact writeTile_comm fm scene config _ _ img (Or.inr (fun px py =>
      tiles_disjoint config.width config.height config.tileSize j i px py
        (fun hco => hij hco.symm)))

theorem renderFold_perm (fm : FloatModel) (scene : Scene) (config : RTConfig)
    (l1 l2 : List ℕ) (hperm : l1.Perm l2) :
    ∀ img, l1.foldl (renderStep fm scene config) img
      = l2.foldl (renderStep fm scene config) img := by
  induction hperm with
  | nil => intro img; rfl
  | cons x p ih =>
    intro img
    rw [List.foldl_cons, List.foldl_cons]
    exact ih _
  | swap x y l =>
    intro img
    rw [List.foldl_cons, List.foldl_cons, List.foldl_cons, List.foldl_cons]
    rw [renderStep_comm fm scene config img y x]
  | trans p1 p2 ih1 ih2 =>
    intro img
    rw [ih1 img, ih2 img]

/-- C2: the image produced by a complete render does not depend on the
order in which the tiles are executed: each thread only influences which
tile indices it claims from the shared atomic counter, every tile is
rendered by a deterministic function of the tile alone (its sub-pixel
sample stream is seeded from the tile coordinates, never from the thread),
and tiles write pairwise disjoint pixel rectangles, so any two schedules
that execute the same tile indices — in particular one thread versus N
threads — yield identical RGBA values at every pixel. -/
theorem render_thread_count_invariant (fm : FloatModel) (scene : Scene)
    (config : RTConfig) (order1 order2 : List ℕ) (hperm : order1.Perm order2) :
    ∀ x y, (renderWithOrder fm scene config order1).pix x y
      = (renderWithOrder fm scene config order2).pix x y := by
  intro x y
  unfold renderWithOrder
  rw [renderFold_perm fm scene config order1 order2 hperm]

/-- C2 witness: in a two-tile configuration, executing the tiles in order
[1, 0] (one possible multi-thread schedule) and in order [0, 1] (the
single-thread schedule) gives the same color at pixel (0,0). -/
theorem render_thread_count_invariant_witness :
    (renderWithOrder qModel sceneAB twoTileConfig [1, 0]).pix 0 0
      = (renderWithOrder qModel sceneAB twoTileConfig [0, 1]).pix 0 0 :=
  render_thread_count_invariant qModel sceneAB twoTileConfig [1, 0] [0, 1]
    (List.Perm.swap 0 1 []) 0 0

theorem buildBox_offset0_flag (tex : BodyPartTexture) (pos size : Vec3) :
    (buildBox tex pos size 0).isOuterLayer = false := by
  norm_num [buildBox]

theorem buildBox_offsetHalf_flag (tex : BodyPartTexture) (pos size : Vec3) :
    (buildBox tex pos size (1/2)).isOuterLayer = true := by
  norm_num [buildBox]

theorem buildBox_offsetHalfInv_flag (tex : BodyPartTexture) (pos size : Vec3) :
    (buildBox tex pos size (2⁻¹ : ℚ)).isOuterLayer = true := by
  norm_num [buildBox]

theorem buildScene_meshes (skin : SkinData) :
    (buildScene skin).meshes
      = (partDefs skin).flatMap (fun p =>
          buildBox p.inner p.position p.size 0
            :: (if isFullyTransparent p.outer then []
                else [buildBox p.outer p.position p.size (1/2)])) := by
  have hgen : ∀ (l : List PartDef) (acc : List Mesh),
      l.foldl (fun acc part =>
        let acc1 := acc ++ [buildBox part.inner part.position part.size 0]
        if isFullyTransparent part.outer then acc1
        else acc1 ++ [buildBox part.outer part.position part.size (1/2)]) acc
      = acc ++ l.flatMap (fun p =>
          buildBox p.inner p.position p.size 0
            :: (if isFullyTransparent p.outer then []
                else [buildBox p.outer p.position p.size (1/2)])) := by
    intro l
    induction l with
    | nil =>
      intro acc
      simp
    | cons p l ih =>
      intro acc
      rw [List.foldl_cons, ih, List.flatMap_cons]
      by_cases hc : isFullyTransparent p.outer
      · simp [hc]
      · simp [hc]
  have hb : (buildScene skin).meshes
      = (partDefs skin).foldl
          (fun acc part =>
            let acc1 := acc ++ [buildBox part.inner part.position part.size 0]
            if isFullyTransparent part.outer then acc1
            else acc1 ++ [buildBox part.outer part.position part.size (1/2)])
          [] := rfl
  rw [hb, hgen (partDefs skin) [], List.nil_append]

theorem partMeshes_counts (l : List PartDef) :
    (l.flatMap (fun p =>
        buildBox p.inner p.position p.size 0
          :: (if isFullyTransparent p.outer then []
              else [buildBox p.outer p.position p.size (1/2)]))).countP
        (fun m => m.isOuterLayer)
      = (l.filter (fun p => !isFullyTransparent p.outer)).length
    ∧ (l.flatMap (fun p =>
        buildBox p.inner p.position p.size 0
          :: (if isFullyTransparent p.outer then []
              else [buildBox p.outer p.position p.size (1/2)]))).countP
        (fun m => !m.isOuterLayer)
      = l.length := by
  induction l with
  | nil => exact ⟨rfl, rfl⟩
  | cons p l ih =>
    rw [List.flatMap_cons, List.countP_append, List.countP_append,
      List.filter_cons, List.length_cons]
    constructor
    · rw [ih.1]
      by_cases hc : isFullyTransparent p.outer
      · simp [hc, List.countP_cons, buildBox_offset0_flag]
      · simp [hc, List.countP_cons, buildBox_offset0_flag,
          buildBox_offsetHalf_flag, buildBox_offsetHalfInv_flag]
        omega
    · rw [ih.2]
      by_cases hc : isFullyTransparent p.outer
      · simp [hc, List.countP_cons, buildBox_offset0_flag]
        omega
      · simp [hc, List.countP_cons, buildBox_offset0_flag,
          buildBox_offsetHalf_flag, buildBox_offsetHalfInv_flag]
        omega

/-- C9: buildScene always adds each body part inner-layer mesh and adds
the outer-layer mesh exactly when the outer texture set is not fully
transparent; the scene mesh list is precisely the row-by-row concatenation
of inner box plus conditional outer box for the six parts, so the number
of outer-layer meshes equals the number of parts with a not-fully
transparent outer texture while the inner-layer meshes always number six,
and full transparency means every pixel of all six faces has alpha exactly
0.  The decision is taken once while building the scene. -/
theorem buildScene_outer_layer_policy (skin : SkinData) :
    ((buildScene skin).meshes
      = (partDefs skin).flatMap (fun p =>
          buildBox p.inner p.position p.size 0
            :: (if isFullyTransparent p.outer then []
                else [buildBox p.outer p.position p.size (1/2)])))
    ∧ (buildScene skin).meshes.countP (fun m => m.isOuterLayer)
        = ((partDefs skin).filter (fun p => !isFullyTransparent p.outer)).length
    ∧ (buildScene skin).meshes.countP (fun m => !m.isOuterLayer) = 6
    ∧ (∀ tex : BodyPartTexture, isFullyTransparent tex = true ↔
        ∀ region ∈ [tex.top, tex.bottom, tex.front, tex.back, tex.left, tex.right],
          ∀ pixel ∈ region.pixels, pixel.a = 0) := by
  refine ⟨buildScene_meshes skin, ?_, ?_, ?_⟩
  · rw [buildScene_meshes skin]
    exact (partMeshes_counts (partDefs skin)).1
  · rw [buildScene_meshes skin]
    rw [(partMeshes_counts (partDefs skin)).2]
    rfl
  · intro tex
    simp only [isFullyTransparent, isRegionFullyTransparent, List.all_eq_true,
      decide_eq_true_eq, Bool.decide_and, Bool.and_eq_true, List.forall_mem_cons,
      List.not_mem_nil, false_implies, implies_true, and_true]
